import Mathlib

/-!
# UAVCAN parameter and enumeration bridge (uavcan_servers.cpp)

A shallow embedding of the tick loop of `UavcanServers::run` and of its
service-call callbacks.  Every block of the loop body and every callback is a
function from the member variables (`State`) and the inputs of the block to
the new member variables and the list of calls and publications it makes, in
program order.

Conventions.
* The member declarations live in `uavcan_servers.hpp`; the unsigned 8-bit
  members (`_param_counts[]`, `_count_index`, `_param_index`,
  `_esc_enumeration_ids[]`, `_esc_enumeration_index`, `_esc_count`) are
  natural numbers, and `% 256` is written wherever the code increments,
  narrows or stores into one of them.
* The two tables are lists; reading outside a table yields 0 and writing
  outside is dropped (the C++ behaviour there is undefined).
* The result of a `call()` (`call_res >= 0`) is not decided by this code: it
  is an input `call_ok` of the block that makes the call.
* `warnx` logging is omitted.
-/

namespace UavcanServers

/-! ## External constants -/

/-- Message id of the MAVLink PARAM_REQUEST_READ message. -/
def MAVLINK_MSG_ID_PARAM_REQUEST_READ : Nat := 20
/-- Message id of the MAVLink PARAM_REQUEST_LIST message. -/
def MAVLINK_MSG_ID_PARAM_REQUEST_LIST : Nat := 21
/-- Message id of the MAVLink PARAM_SET message. -/
def MAVLINK_MSG_ID_PARAM_SET : Nat := 23
/-- MAVLink component id meaning every component. -/
def MAV_COMP_ID_ALL : Nat := 0
/-- MAVLink parameter type tag of an unsigned 8-bit value. -/
def MAV_PARAM_TYPE_UINT8 : Nat := 1
/-- MAVLink parameter type tag of a signed 64-bit value. -/
def MAV_PARAM_TYPE_INT64 : Nat := 8
/-- MAVLink parameter type tag of a 32-bit float. -/
def MAV_PARAM_TYPE_REAL32 : Nat := 9
/-- Command number of `vehicle_command_s::VEHICLE_CMD_PREFLIGHT_UAVCAN`. -/
def VEHICLE_CMD_PREFLIGHT_UAVCAN : Nat := 243
/-- Magic number of `uavcan.protocol.RestartNode`. -/
def MAGIC_NUMBER : Nat := 0xACCE551B1E
/-- Opcode `OPCODE_SAVE` of `uavcan.protocol.param.ExecuteOpcode`. -/
def OPCODE_SAVE : Nat := 0
/-- Opcode `OPCODE_ERASE` of `uavcan.protocol.param.ExecuteOpcode`. -/
def OPCODE_ERASE : Nat := 1

/-! ## Data model -/

/-- A 32-bit float, kept as its bit pattern: the code only copies floats. -/
structure Real32 where
  bits : Nat
  deriving DecidableEq, Repr

/-- A parameter name: the bytes of the string. -/
abbrev Name := List Nat

/-- The name "esc_index" used by the enumeration requests. -/
def esc_index_name : Name := [101, 115, 99, 95, 105, 110, 100, 101, 120]

/-- Union `uavcan.protocol.param.Value`. -/
inductive Value where
  | empty
  | integer_value (v : Int)
  | real_value (v : Real32)
  | boolean_value (v : Nat)
  | string_value (v : Name)
  deriving DecidableEq, Repr

/-- Accessor `value.to<Tag::integer_value>()` used for reading: a union that
holds another alternative is re-initialised to a zero integer. -/
def Value.to_integer_value : Value → Int
  | .integer_value v => v
  | _ => 0

/-- Request of `uavcan.protocol.param.GetSet`; a default-constructed request
has index 0, an empty name and an empty value. -/
structure GetSetRequest where
  index : Nat := 0
  name : Name := []
  value : Value := Value.empty
  deriving DecidableEq, Repr

/-- Response of `uavcan.protocol.param.GetSet` (the fields the code reads). -/
structure GetSetResponse where
  name : Name
  value : Value
  deriving DecidableEq, Repr

/-- Completion of a GetSet call: `getCallID().server_node_id`, `isSuccessful()`
and `getResponse()`. -/
structure GetSetResult where
  server_node_id : Nat
  successful : Bool
  response : GetSetResponse
  deriving DecidableEq, Repr

/-- The uORB message `uavcan_parameter_request_s`. -/
structure uavcan_parameter_request_s where
  message_type : Nat
  node_id : Nat
  param_id : Name
  param_index : Int
  param_type : Nat
  int_value : Int
  real_value : Real32
  deriving DecidableEq, Repr

/-- The uORB message `uavcan_parameter_value_s`.  The code fills a local
that is not initialised, so the type tag and the two value fields are `none`
where the code does not assign them. -/
structure uavcan_parameter_value_s where
  node_id : Nat
  param_id : Name
  param_index : Int
  param_count : Nat
  param_type : Option Nat
  int_value : Option Int
  real_value : Option Real32
  deriving DecidableEq, Repr

/-- The uORB message `vehicle_command_s`, with `param1` and `param2` already
rounded the way the code does (`static_cast<int>(p + 0.5f)`). -/
structure vehicle_command_s where
  command : Nat
  command_id : Int
  node_id : Int
  deriving DecidableEq, Repr

/-- Tone of a `BeepCommand`: frequency in Hz and duration in milliseconds. -/
structure BeepCommand where
  frequency : Nat
  duration_ms : Nat
  deriving DecidableEq, Repr

/-- What a block of the loop or a callback does to the outside, in program
order.  Each call carries the target node, the request and whether the
client accepted the submission (`call_res >= 0`). -/
inductive Effect where
  | getset_call (node : Nat) (req : GetSetRequest) (accepted : Bool)
  | param_advertise (v : uavcan_parameter_value_s)
  | param_publish (v : uavcan_parameter_value_s)
  | begin_call (node : Nat) (timeout_sec : Nat) (accepted : Bool)
  | enum_getset_call (node : Nat) (req : GetSetRequest) (accepted : Bool)
  | enum_save_call (node : Nat) (opcode : Nat) (accepted : Bool)
  | restart_call (node : Nat) (magic_number : Nat) (accepted : Bool)
  | opcode_call (node : Nat) (opcode : Nat) (accepted : Bool)
  | beep (b : BeepCommand)
  deriving DecidableEq, Repr

/-- The collaborators the code queries: the node directory
(`_node_info_retriever.isNodeKnown`), the own address
(`_subnode.getNodeID()`) and the constant
`uavcan::equipment::esc::RawCommand::FieldTypes::cmd::MaxSize`. -/
structure Env where
  isNodeKnown : Nat → Bool
  ownNodeID : Nat
  MaxSize : Nat

/-- The member variables of `UavcanServers` that the loop and the callbacks
read or write. -/
structure State where
  _count_in_progress : Bool
  _count_index : Nat
  _param_in_progress : Bool
  _param_index : Nat
  _param_list_in_progress : Bool
  _param_list_all_nodes : Bool
  _param_list_node_id : Nat
  _cmd_in_progress : Bool
  _param_counts : List Nat
  _param_response_pub : Bool
  _esc_enumeration_active : Bool
  _esc_enumeration_ids : List Nat
  _esc_enumeration_index : Nat
  _esc_count : Nat
  deriving DecidableEq, Repr

/-! ## The parameter bridge -/

/-- Function `UavcanServers::get_next_active_node_id`: the first `i` in
`base, base+1, ..., 127` that is known and is not the own address, else
`base`. -/
def get_next_active_node_id (env : Env) (base : Nat) : Nat :=
  match (List.range' base (128 - base)).find?
      (fun i => env.isNodeKnown i && (env.ownNodeID != i)) with
  | some i => i
  | none => base

/-- Function `UavcanServers::param_count`. -/
def param_count (s : State) (node_id : Nat) (call_ok : Bool) : State × List Effect :=
  let req : GetSetRequest := { index := 0 }
  if call_ok then
    ({ s with _count_in_progress := true, _count_index := 0 },
      [Effect.getset_call node_id req true])
  else
    (s, [Effect.getset_call node_id req false])

/-- The C string read from a character buffer: the bytes before the first
NUL. -/
def c_str (buf : Name) : Name := buf.takeWhile (fun b => b != 0)

/-- The `uavcan_parameter_value_s` that `cb_getset` fills from a successful
response (get/set mode). -/
def make_response (s : State) (result : GetSetResult) : uavcan_parameter_value_s :=
  let param := result.response
  let node_id := result.server_node_id
  let base : uavcan_parameter_value_s :=
    { node_id := node_id
      param_id := (c_str param.name).take 16
      param_index := (s._param_index : Int)
      param_count := s._param_counts.getD node_id 0
      param_type := none
      int_value := none
      real_value := none }
  match param.value with
  | .integer_value v =>
      { base with param_type := some MAV_PARAM_TYPE_INT64, int_value := some v }
  | .real_value v =>
      { base with param_type := some MAV_PARAM_TYPE_REAL32, real_value := some v }
  | .boolean_value v =>
      { base with param_type := some MAV_PARAM_TYPE_UINT8, int_value := some (v : Int) }
  | _ => base

/-- Callback `UavcanServers::cb_getset`.  `call_ok` is the result of the
next-index `call()` of the counting branch, `adv_ok` whether `orb_advertise`
returned a handle. -/
def cb_getset (s : State) (result : GetSetResult) (call_ok adv_ok : Bool) :
    State × List Effect :=
  if s._count_in_progress then
    let node_id := result.server_node_id
    if result.successful then
      if result.response.name.length != 0 then
        -- _param_counts[node_id] = _count_index++;
        let s1 := { s with
          _param_counts := s._param_counts.set node_id s._count_index
          _count_index := (s._count_index + 1) % 256 }
        let req : GetSetRequest := { index := s1._count_index }
        if call_ok then
          (s1, [Effect.getset_call node_id req true])
        else
          ({ s1 with _count_in_progress := false, _count_index := 0 },
            [Effect.getset_call node_id req false])
      else
        ({ s with _count_in_progress := false, _count_index := 0 }, [])
    else
      ({ s with
          _param_counts := s._param_counts.set node_id 0
          _count_in_progress := false
          _count_index := 0 }, [])
  else
    let (s1, eff) : State × List Effect :=
      if result.successful then
        let response := make_response s result
        if s._param_response_pub then
          (s, [Effect.param_publish response])
        else
          ({ s with _param_response_pub := adv_ok }, [Effect.param_advertise response])
      else
        (s, [])
    ({ s1 with _param_in_progress := false, _param_index := (s1._param_index + 1) % 256 }, eff)

/-- The GetSet request built for a read or a write: by index when
`request.param_index >= 0`, by name otherwise. -/
def select_param (request : uavcan_parameter_request_s) : GetSetRequest :=
  if request.param_index >= 0 then
    { index := request.param_index.toNat }
  else
    { name := c_str request.param_id }

/-- The value a write puts into the request, by the request's type tag. -/
def set_value (request : uavcan_parameter_request_s) : Value :=
  if request.param_type == MAV_PARAM_TYPE_REAL32 then
    Value.real_value request.real_value
  else if request.param_type == MAV_PARAM_TYPE_UINT8 then
    Value.boolean_value (request.int_value % 256).toNat
  else
    Value.integer_value request.int_value

/-- The end of the read and of the write branch: the call to the request's
node and what follows it. -/
def send_getset (s : State) (request : uavcan_parameter_request_s) (req : GetSetRequest)
    (call_ok : Bool) : State × List Effect :=
  if call_ok then
    ({ s with _param_in_progress := true
              _param_index := (request.param_index % 256).toNat },
      [Effect.getset_call request.node_id req true])
  else
    (s, [Effect.getset_call request.node_id req false])

/-- Block "Check for parameter requests (get/set/list)" of `run`.
`param_request` is the pending request, if `orb_check` reports one. -/
def run_param_request (env : Env) (s : State)
    (param_request : Option uavcan_parameter_request_s) (call_ok : Bool) :
    State × List Effect :=
  match param_request with
  | none => (s, [])
  | some request =>
    if !s._param_list_in_progress && !s._param_in_progress && !s._count_in_progress then
      if s._param_counts.getD request.node_id 0 != 0 then
        if request.message_type == MAVLINK_MSG_ID_PARAM_REQUEST_READ then
          send_getset s request (select_param request) call_ok
        else if request.message_type == MAVLINK_MSG_ID_PARAM_SET then
          send_getset s request { select_param request with value := set_value request } call_ok
        else if request.message_type == MAVLINK_MSG_ID_PARAM_REQUEST_LIST then
          ({ s with _param_index := 0
                    _param_list_in_progress := true
                    _param_list_node_id := request.node_id
                    _param_list_all_nodes := false }, [])
        else
          (s, [])
      else if request.node_id == MAV_COMP_ID_ALL then
        if request.message_type == MAVLINK_MSG_ID_PARAM_REQUEST_LIST then
          let s1 := { s with _param_index := 0
                             _param_list_in_progress := true
                             _param_list_node_id := get_next_active_node_id env 1
                             _param_list_all_nodes := true }
          if s1._param_counts.getD s1._param_list_node_id 0 == 0 then
            param_count s1 s1._param_list_node_id call_ok
          else
            (s1, [])
        else
          (s, [])
      else
        param_count s request.node_id call_ok
    else
      (s, [])

/-- Block "Handle parameter listing index/node ID advancement" of `run`. -/
def run_list_advance (env : Env) (s : State) (call_ok : Bool) : State × List Effect :=
  if s._param_list_in_progress && !s._param_in_progress && !s._count_in_progress then
    if s._param_index >= s._param_counts.getD s._param_list_node_id 0 then
      let s1 := { s with _param_list_in_progress := false }
      if s1._param_list_all_nodes then
        let next_id := get_next_active_node_id env s1._param_list_node_id
        if next_id != s1._param_list_node_id then
          let (s2, eff) :=
            if s1._param_counts.getD s1._param_list_node_id 0 == 0 then
              param_count s1 s1._param_list_node_id call_ok
            else
              (s1, [])
          ({ s2 with _param_index := 0, _param_list_in_progress := true }, eff)
        else
          (s1, [])
      else
        (s1, [])
    else
      (s, [])
  else
    (s, [])

/-- Block "Check if we're still listing, and need to get the next parameter"
of `run`. -/
def run_list_next (s : State) (call_ok : Bool) : State × List Effect :=
  if s._param_list_in_progress && !s._param_in_progress && !s._count_in_progress then
    let req : GetSetRequest := { index := s._param_index }
    if call_ok then
      ({ s with _param_in_progress := true },
        [Effect.getset_call s._param_list_node_id req true])
    else
      ({ s with _param_list_in_progress := false },
        [Effect.getset_call s._param_list_node_id req false])
  else
    (s, [])

/-! ## Commands and ESC enumeration -/

/-- The Begin request timeout: `_esc_enumeration_active ? 65535 : 0`. -/
def begin_timeout (s : State) : Nat := if s._esc_enumeration_active then 65535 else 0

/-- Block "Check for ESC enumeration commands" of `run`.  `cmd` is the
pending vehicle command, if `orb_check` reports one. -/
def run_command (env : Env) (s : State) (cmd : Option vehicle_command_s) (call_ok : Bool) :
    State × List Effect :=
  match cmd with
  | none => (s, [])
  | some cmd =>
    if !s._cmd_in_progress then
      if cmd.command == VEHICLE_CMD_PREFLIGHT_UAVCAN then
        if cmd.command_id == 0 || cmd.command_id == 1 then
          let s1 := { s with _esc_enumeration_active := (cmd.command_id != 0)
                             _esc_enumeration_index := 0
                             _esc_count := 0 }
          (s1, [Effect.begin_call (get_next_active_node_id env 1) (begin_timeout s1) call_ok])
        else if cmd.command_id == 2 then
          let eff := [Effect.restart_call (cmd.node_id % 256).toNat MAGIC_NUMBER call_ok]
          if call_ok then ({ s with _cmd_in_progress := true }, eff) else (s, eff)
        else if cmd.command_id == 3 || cmd.command_id == 4 then
          let eff := [Effect.opcode_call (cmd.node_id % 256).toNat
            (if cmd.command_id == 3 then OPCODE_SAVE else OPCODE_ERASE) call_ok]
          if call_ok then ({ s with _cmd_in_progress := true }, eff) else (s, eff)
        else
          (s, [])
      else
        (s, [])
    else
      (s, [])

/-- Callback `UavcanServers::cb_restart`. -/
def cb_restart (s : State) (_successful _ok : Bool) : State × List Effect :=
  ({ s with _cmd_in_progress := false }, [])

/-- Callback `UavcanServers::cb_opcode`. -/
def cb_opcode (s : State) (_successful _ok : Bool) : State × List Effect :=
  ({ s with _cmd_in_progress := false }, [])

/-- Callback `UavcanServers::cb_enumeration_begin`.  `error` is the error
field of the response. -/
def cb_enumeration_begin (env : Env) (s : State) (server_node_id : Nat)
    (successful : Bool) (error : Nat) (call_ok : Bool) : State × List Effect :=
  let next_id := get_next_active_node_id env server_node_id
  let s1 :=
    if !successful then s
    else if error != 0 then s
    else { s with _esc_count := (s._esc_count + 1) % 256 }
  if next_id != server_node_id then
    (s1, [Effect.begin_call next_id (begin_timeout s1) call_ok])
  else
    (s1, [])

/-- The scan loop of `cb_enumeration_indication`: the first position `i` in
`0, ..., _esc_enumeration_index - 1` whose table entry is `src` (the loop
breaks there), else `_esc_enumeration_index` (the loop runs out). -/
def scan_ids (ids : List Nat) (index src : Nat) : Nat :=
  match (List.range index).find? (fun i => ids.getD i 0 == src) with
  | some i => i
  | none => index

/-- Callback `UavcanServers::cb_enumeration_indication`; `src` is
`msg.getSrcNodeID()`. -/
def cb_enumeration_indication (s : State) (src : Nat) (call_ok : Bool) :
    State × List Effect :=
  if !s._esc_enumeration_active then
    (s, [])
  else
    let i := scan_ids s._esc_enumeration_ids s._esc_enumeration_index src
    let req : GetSetRequest :=
      { name := esc_index_name, value := Value.integer_value (i : Int) }
    (s, [Effect.enum_getset_call src req call_ok])

/-- Callback `UavcanServers::cb_enumeration_getset`. -/
def cb_enumeration_getset (env : Env) (s : State) (result : GetSetResult) (call_ok : Bool) :
    State × List Effect :=
  if !result.successful then
    (s, [])
  else
    let esc_index0 : Nat := (result.response.value.to_integer_value % 256).toNat
    let esc_index : Nat := min (((env.MaxSize : Int) - 1) % 256).toNat esc_index0
    ({ s with
        _esc_enumeration_index := max s._esc_enumeration_index esc_index
        _esc_enumeration_ids := s._esc_enumeration_ids.set esc_index result.server_node_id },
      [Effect.enum_save_call result.server_node_id OPCODE_SAVE call_ok])

/-- Callback `UavcanServers::cb_enumeration_save`; `ok` is the `ok` field of
the response. -/
def cb_enumeration_save (env : Env) (s : State) (successful ok : Bool) (call_ok : Bool) :
    State × List Effect :=
  let beep : BeepCommand :=
    if !successful then { frequency := 880, duration_ms := 1000 }
    else if !ok then { frequency := 880, duration_ms := 1000 }
    else { frequency := 440, duration_ms := 250 }
  if (s._esc_enumeration_index : Int) == (env.MaxSize : Int) - 1 ||
      (s._esc_enumeration_index : Int) == (s._esc_count : Int) - 1 then
    ({ s with _esc_enumeration_active := false },
      [Effect.beep beep, Effect.begin_call (get_next_active_node_id env 1) 0 call_ok])
  else
    (s, [Effect.beep beep])

/-! ## One loop iteration and the event system

Completions are delivered by `_subnode.spin` at the start of an iteration, on
the same thread, so an execution is a sequence of events: loop iterations
(the four blocks, in the order of the source) and deliveries.  The service
clients keep the calls that are outstanding; a client removes a call from
its registry before it invokes the callback. -/

/-- The inputs of one loop iteration: the pending uORB items and the result
of the `call()` each block may make. -/
structure TickInput where
  param_request : Option uavcan_parameter_request_s
  cmd : Option vehicle_command_s
  request_ok : Bool
  advance_ok : Bool
  list_ok : Bool
  cmd_ok : Bool
  deriving DecidableEq, Repr

/-- One iteration of the `while (1)` loop of `run`, from the parameter
request check to the command check. -/
def run_iteration (env : Env) (s : State) (inp : TickInput) : State × List Effect :=
  let r1 := run_param_request env s inp.param_request inp.request_ok
  let r2 := run_list_advance env r1.1 inp.advance_ok
  let r3 := run_list_next r2.1 inp.list_ok
  let r4 := run_command env r3.1 inp.cmd inp.cmd_ok
  (r4.1, r1.2 ++ r2.2 ++ r3.2 ++ r4.2)

/-- The outstanding calls of each service client: the server node of each
call, oldest first. -/
structure Pending where
  getset : List Nat
  enum_begin : List Nat
  enum_getset : List Nat
  enum_save : List Nat
  restart : List Nat
  opcode : List Nat
  deriving DecidableEq, Repr

/-- An accepted call becomes outstanding on its client. -/
def Pending.submit (p : Pending) : Effect → Pending
  | .getset_call n _ true => { p with getset := p.getset ++ [n] }
  | .begin_call n _ true => { p with enum_begin := p.enum_begin ++ [n] }
  | .enum_getset_call n _ true => { p with enum_getset := p.enum_getset ++ [n] }
  | .enum_save_call n _ true => { p with enum_save := p.enum_save ++ [n] }
  | .restart_call n _ true => { p with restart := p.restart ++ [n] }
  | .opcode_call n _ true => { p with opcode := p.opcode ++ [n] }
  | _ => p

/-- The member variables together with the outstanding calls. -/
structure System where
  st : State
  pending : Pending
  deriving DecidableEq, Repr

/-- The events of an execution.  A delivery names the outstanding call it
completes by its position `k` in the client's registry. -/
inductive Event where
  | iteration (inp : TickInput)
  | getset_done (k : Nat) (successful : Bool) (response : GetSetResponse)
      (call_ok adv_ok : Bool)
  | begin_done (k : Nat) (successful : Bool) (error : Nat) (call_ok : Bool)
  | indication (src : Nat) (call_ok : Bool)
  | enum_getset_done (k : Nat) (successful : Bool) (response : GetSetResponse)
      (call_ok : Bool)
  | enum_save_done (k : Nat) (successful ok call_ok : Bool)
  | restart_done (k : Nat) (successful ok : Bool)
  | opcode_done (k : Nat) (successful ok : Bool)
  deriving DecidableEq, Repr

/-- The new system after the code ran from registry `p` and returned `r`. -/
def System.after (p : Pending) (r : State × List Effect) : System × List Effect :=
  ({ st := r.1, pending := r.2.foldl Pending.submit p }, r.2)

/-- One event.  A delivery for a call that is not outstanding is not
possible (`none`). -/
def step (env : Env) (sys : System) : Event → Option (System × List Effect)
  | .iteration inp => some (System.after sys.pending (run_iteration env sys.st inp))
  | .getset_done k successful response call_ok adv_ok =>
    match sys.pending.getset.get? k with
    | none => none
    | some node =>
      some (System.after { sys.pending with getset := sys.pending.getset.eraseIdx k }
        (cb_getset sys.st
          { server_node_id := node, successful := successful, response := response }
          call_ok adv_ok))
  | .begin_done k successful error call_ok =>
    match sys.pending.enum_begin.get? k with
    | none => none
    | some node =>
      some (System.after { sys.pending with enum_begin := sys.pending.enum_begin.eraseIdx k }
        (cb_enumeration_begin env sys.st node successful error call_ok))
  | .indication src call_ok =>
    some (System.after sys.pending (cb_enumeration_indication sys.st src call_ok))
  | .enum_getset_done k successful response call_ok =>
    match sys.pending.enum_getset.get? k with
    | none => none
    | some node =>
      some (System.after { sys.pending with enum_getset := sys.pending.enum_getset.eraseIdx k }
        (cb_enumeration_getset env sys.st
          { server_node_id := node, successful := successful, response := response }
          call_ok))
  | .enum_save_done k successful ok call_ok =>
    match sys.pending.enum_save.get? k with
    | none => none
    | some _ =>
      some (System.after { sys.pending with enum_save := sys.pending.enum_save.eraseIdx k }
        (cb_enumeration_save env sys.st successful ok call_ok))
  | .restart_done k successful ok =>
    match sys.pending.restart.get? k with
    | none => none
    | some _ =>
      some (System.after { sys.pending with restart := sys.pending.restart.eraseIdx k }
        (cb_restart sys.st successful ok))
  | .opcode_done k successful ok =>
    match sys.pending.opcode.get? k with
    | none => none
    | some _ =>
      some (System.after { sys.pending with opcode := sys.pending.opcode.eraseIdx k }
        (cb_opcode sys.st successful ok))

/-- A sequence of events, with the effects of all of them in order. -/
def exec (env : Env) : System → List Event → Option (System × List Effect)
  | sys, [] => some (sys, [])
  | sys, ev :: evs =>
    match step env sys ev with
    | none => none
    | some r1 =>
      match exec env r1.1 evs with
      | none => none
      | some r2 => some (r2.1, r1.2 ++ r2.2)

/-- The member variables when `run` enters its loop: the constructor's
initialisers and the resets before `while (1)`.  `_esc_count` is set by
neither, so its first value is a parameter. -/
def State.init (MaxSize esc_count : Nat) : State :=
  { _count_in_progress := false
    _count_index := 0
    _param_in_progress := false
    _param_index := 0
    _param_list_in_progress := false
    _param_list_all_nodes := false
    _param_list_node_id := 1
    _cmd_in_progress := false
    _param_counts := List.replicate 128 0
    _param_response_pub := false
    _esc_enumeration_active := false
    _esc_enumeration_ids := List.replicate MaxSize 0
    _esc_enumeration_index := 0
    _esc_count := esc_count }

/-- No call is outstanding. -/
def Pending.empty : Pending :=
  { getset := [], enum_begin := [], enum_getset := [], enum_save := [],
    restart := [], opcode := [] }

/-- The system when `run` enters its loop. -/
def System.init (MaxSize esc_count : Nat) : System :=
  { st := State.init MaxSize esc_count, pending := Pending.empty }

/-- The systems an execution can be in: the initial one, and those an event
leads to from a reachable one.  The node directory may differ from event to
event; the table size does not. -/
inductive Reachable (MaxSize : Nat) : System → Prop where
  | init (esc_count : Nat) (h : esc_count < 256) :
      Reachable MaxSize (System.init MaxSize esc_count)
  | step (env : Env) (sys : System) (ev : Event) (sys1 : System) (eff : List Effect)
      (hr : Reachable MaxSize sys) (hm : env.MaxSize = MaxSize)
      (hs : step env sys ev = some (sys1, eff)) : Reachable MaxSize sys1

/-- The GetSet calls among the effects: target node and request. -/
def getset_calls : List Effect → List (Nat × GetSetRequest)
  | [] => []
  | .getset_call n req _ :: es => (n, req) :: getset_calls es
  | _ :: es => getset_calls es

/-- Whether every call the effects submit on the parameter GetSet client is
submitted while the client's registry, `p` before the first effect, is empty. -/
def getset_exclusive : List Nat → List Effect → Bool
  | _, [] => true
  | p, .getset_call n _ accepted :: es =>
    p.isEmpty && getset_exclusive (if accepted then p ++ [n] else p) es
  | p, _ :: es => getset_exclusive p es

/-- The registry of the parameter GetSet client at the moment the code of
an event starts to run: a delivery has removed its call. -/
def getset_pending_at_entry (sys : System) : Event → List Nat
  | .getset_done k _ _ _ _ => sys.pending.getset.eraseIdx k
  | _ => sys.pending.getset

/-- The parameter values the effects publish, through `orb_advertise` (which
publishes its initial value) or `orb_publish`. -/
def publications : List Effect → List uavcan_parameter_value_s
  | [] => []
  | .param_advertise v :: es => v :: publications es
  | .param_publish v :: es => v :: publications es
  | _ :: es => publications es

/-- The Begin calls among the effects: target node and timeout. -/
def begin_calls : List Effect → List (Nat × Nat)
  | [] => []
  | .begin_call n t _ :: es => (n, t) :: begin_calls es
  | _ :: es => begin_calls es

/-! ## Scenarios -/

/-- A loop iteration with no pending uORB item; every call is accepted. -/
def idle : TickInput :=
  { param_request := none, cmd := none
    request_ok := true, advance_ok := true, list_ok := true, cmd_ok := true }

/-- A loop iteration that finds the parameter request `request`; every call
is accepted. -/
def with_request (request : uavcan_parameter_request_s) : TickInput :=
  { idle with param_request := some request }

/-- A loop iteration that finds the UAVCAN command `command_id` for
`node_id`; every call is accepted. -/
def with_command (command_id node_id : Int) : TickInput :=
  { idle with cmd := some { command := VEHICLE_CMD_PREFLIGHT_UAVCAN
                            command_id := command_id, node_id := node_id } }

/-- A parameter request of kind `message_type` for `node_id`, by index. -/
def request_for (message_type node_id : Nat) (param_index : Int) :
    uavcan_parameter_request_s :=
  { message_type := message_type, node_id := node_id, param_id := []
    param_index := param_index, param_type := MAV_PARAM_TYPE_INT64
    int_value := 0, real_value := { bits := 0 } }

/-- A successful reply to a lookup: delivery of the only outstanding GetSet
call with name `name`; the next call is accepted. -/
def reply (name : Name) : Event :=
  Event.getset_done 0 true { name := name, value := Value.integer_value 0 } true true

/-- A directory that knows exactly the nodes 2 and 9; own address 1. -/
def env_2_9 : Env :=
  { isNodeKnown := fun i => i == 2 || i == 9, ownNodeID := 1, MaxSize := 20 }

/-- A directory that knows exactly the nodes 4 and 6; own address 1. -/
def env_4_6 : Env :=
  { isNodeKnown := fun i => i == 4 || i == 6, ownNodeID := 1, MaxSize := 20 }

/-- The initial system, except that the count of node 2 is cached as 3. -/
def sys_count_2_is_3 : System :=
  { st := { State.init 20 0 with _param_counts := (List.replicate 128 0).set 2 3 }
    pending := Pending.empty }

/-- The counting flag is set. -/
def state_counting : State := { State.init 20 0 with _count_in_progress := true }

/-- A counting pass for node 5 in progress: two names seen, the lookup of
index 2 outstanding. -/
def state_counting_partial : State :=
  { State.init 20 0 with
    _count_in_progress := true
    _count_index := 2
    _param_counts := (List.replicate 128 0).set 5 1 }

/-- A single get/set call is outstanding. -/
def state_getset : State := { State.init 20 0 with _param_in_progress := true }

/-- A failed (timed out) completion from node 5. -/
def failure_from_5 : GetSetResult :=
  { server_node_id := 5, successful := false, response := { name := [], value := Value.empty } }

/-- A successful completion from node 5 with an integer value. -/
def success_from_5 : GetSetResult :=
  { server_node_id := 5, successful := true
    response := { name := [97], value := Value.integer_value 7 } }

/-- A reachable system in which the lookup of index 0 of a counting pass for
node 5 is outstanding. -/
def sys_counting_5 : System :=
  { st := { State.init 20 0 with _count_in_progress := true }
    pending := { Pending.empty with getset := [5] } }

/-- The system `sys_counting_5` after a reply with a non-empty name: the
lookup of index 1 is outstanding. -/
def sys_counting_5_next : System :=
  { st := { State.init 20 0 with _count_in_progress := true, _count_index := 1 }
    pending := { Pending.empty with getset := [5] } }

/-- The registry of the parameter GetSet client after the effects, from the
registry `p` before them: every accepted call is appended. -/
def getset_after : List Nat → List Effect → List Nat
  | p, [] => p
  | p, .getset_call n _ true :: es => getset_after (p ++ [n]) es
  | p, _ :: es => getset_after p es

/-- Invariant of the parameter GetSet client: no call is outstanding, or
exactly one is and the get/set flag or the counting flag is set. -/
def GetSetInv (s : State) (p : List Nat) : Prop :=
  p = [] ∨ (∃ n, p = [n] ∧ (s._param_in_progress = true ∨ s._count_in_progress = true))

/-- A block that starts with registry `p` submits GetSet calls only on an
empty registry and re-establishes the invariant. -/
def BlockOK (p : List Nat) (r : State × List Effect) : Prop :=
  getset_exclusive p r.2 = true ∧ GetSetInv r.1 (getset_after p r.2)

/-- None of the listing, get/set and counting flags is set. -/
def FlowsIdle (st : State) : Prop :=
  st._param_list_in_progress = false ∧ st._param_in_progress = false
  ∧ st._count_in_progress = false

/-- The event brings no new parameter request: any delivery, or a loop
iteration that finds no parameter request. -/
def Event.no_new_request : Event → Bool
  | .iteration inp => inp.param_request.isNone
  | _ => true

/-- A counting pass for node `N` is in progress: the counting flag alone is
set and the lookup to `N` is the outstanding GetSet call. -/
def CountInv (N : Nat) (sys : System) : Prop :=
  sys.st._count_in_progress = true ∧ sys.st._param_in_progress = false
  ∧ sys.st._param_list_in_progress = false ∧ sys.pending.getset = [N]

/-- No parameter flow is in progress and no GetSet call is outstanding. -/
def Quiet (sys : System) : Prop :=
  FlowsIdle sys.st ∧ sys.pending.getset = []

/-- The call is a lookup of a counting pass for node `N`: to `N`, by index,
without a name and without a value. -/
def is_lookup (N : Nat) (c : Nat × GetSetRequest) : Prop :=
  c.1 = N ∧ c.2.name = [] ∧ c.2.value = Value.empty

/-- The result `r` of a block leaves the three parameter flags as they are
in `s`, makes no GetSet call and publishes nothing. -/
def BridgeFrame (s : State) (r : State × List Effect) : Prop :=
  r.1._count_in_progress = s._count_in_progress
  ∧ r.1._param_in_progress = s._param_in_progress
  ∧ r.1._param_list_in_progress = s._param_list_in_progress
  ∧ getset_calls r.2 = [] ∧ publications r.2 = []

/-! ## Scenarios and vocabulary of the command and enumeration statements -/

/-- The restart and opcode calls among the effects. -/
def command_calls : List Effect → List Effect
  | [] => []
  | .restart_call n m a :: es => .restart_call n m a :: command_calls es
  | .opcode_call n o a :: es => .opcode_call n o a :: command_calls es
  | _ :: es => command_calls es

/-- The event is the completion of a restart or of an opcode call. -/
def Event.is_command_completion : Event → Bool
  | .restart_done _ _ _ => true
  | .opcode_done _ _ _ => true
  | _ => false

/-- The result `r` of a block leaves the command-in-progress flag as it is in
`s` and makes no restart and no opcode call. -/
def CmdFrame (s : State) (r : State × List Effect) : Prop :=
  r.1._cmd_in_progress = s._cmd_in_progress ∧ command_calls r.2 = []

/-- The result `r` of a block leaves the claimed-index table and the
highest-claimed index as they are in `s`. -/
def TableFrame (s : State) (r : State × List Effect) : Prop :=
  r.1._esc_enumeration_ids = s._esc_enumeration_ids
  ∧ r.1._esc_enumeration_index = s._esc_enumeration_index

/-- A successful completion from node 5 with a real value. -/
def success_real_from_5 : GetSetResult :=
  { server_node_id := 5, successful := true
    response := { name := [97], value := Value.real_value { bits := 1065353216 } } }

/-- A successful completion from node 5 with a boolean value. -/
def success_bool_from_5 : GetSetResult :=
  { server_node_id := 5, successful := true
    response := { name := [97], value := Value.boolean_value 1 } }

/-- A vehicle command `PREFLIGHT_UAVCAN` with id `command_id` for `node_id`. -/
def uavcan_command (command_id node_id : Int) : vehicle_command_s :=
  { command := VEHICLE_CMD_PREFLIGHT_UAVCAN, command_id := command_id, node_id := node_id }

/-- A restart command is in progress. -/
def state_cmd_in_progress : State := { State.init 20 0 with _cmd_in_progress := true }

/-- The system of `state_cmd_in_progress`, the restart call to node 10
outstanding. -/
def sys_cmd_in_progress : System :=
  { st := state_cmd_in_progress, pending := { Pending.empty with restart := [10] } }

/-- A successful completion of the only outstanding claim call: the node
returns the integer `v`; the save call is accepted. -/
def claim_reply (v : Int) : Event :=
  Event.enum_getset_done 0 true { name := esc_index_name, value := Value.integer_value v } true

/-- A write to index 0 of node 2 with type tag uint8 and integer value 256. -/
def write_bool_256 : uavcan_parameter_request_s :=
  { request_for MAVLINK_MSG_ID_PARAM_SET 2 0 with
    param_type := MAV_PARAM_TYPE_UINT8, int_value := 256 }

/-- A write by name ("ab") to node 2 with type tag real32. -/
def write_real_by_name : uavcan_parameter_request_s :=
  { request_for MAVLINK_MSG_ID_PARAM_SET 2 (-1) with
    param_id := [97, 98, 0, 99]
    param_type := MAV_PARAM_TYPE_REAL32, real_value := { bits := 1065353216 } }

/-- Enumeration is active, node 4 is recorded at index 0 and node 6 at index
1, the highest claimed index. -/
def state_claimed_4_6 : State :=
  { State.init 20 2 with
    _esc_enumeration_active := true
    _esc_enumeration_ids := ((List.replicate 20 0).set 0 4).set 1 6
    _esc_enumeration_index := 1 }

/-- The slot a claim completion writes, in the words of the specification:
the returned value reduced to 8 bits, then capped at `MaxSize - 1`. -/
def claimed_slot (MaxSize : Nat) (v : Value) : Nat :=
  min (MaxSize - 1) (v.to_integer_value % 256).toNat

/-- The claimed-index table has `MaxSize` slots and the highest-claimed index
is one of them. -/
def TableInv (MaxSize : Nat) (st : State) : Prop :=
  st._esc_enumeration_index ≤ MaxSize - 1 ∧ st._esc_enumeration_ids.length = MaxSize

/-- A successful completion from node 4 that returns the integer -1. -/
def claim_minus_one_from_4 : GetSetResult :=
  { server_node_id := 4, successful := true
    response := { name := esc_index_name, value := Value.integer_value (-1) } }

/-- Enumeration is active and the claim call to node 4 is outstanding. -/
def sys_claim_pending_4 : System :=
  { st := { State.init 20 0 with _esc_enumeration_active := true }
    pending := { Pending.empty with enum_begin := [4], enum_getset := [4] } }

/-- The system `sys_claim_pending_4` after node 4 returned index 0: the
table records node 4 in slot 0 and the save call is outstanding. -/
def sys_claimed_4 : System :=
  { st := { State.init 20 0 with
            _esc_enumeration_active := true
            _esc_enumeration_ids := (List.replicate 20 0).set 0 4 }
    pending := { Pending.empty with enum_begin := [4], enum_save := [4] } }

/-! ## Scenarios of the save, failure and node search statements -/

/-- Enumeration is active and nothing has been claimed or accepted yet. -/
def state_enumerating : State := { State.init 20 0 with _esc_enumeration_active := true }

/-- A single get/set call for index 3 is outstanding. -/
def state_getset_index_3 : State :=
  { State.init 20 0 with _param_in_progress := true, _param_index := 3 }

/-- A failed (timed out) delivery of the only outstanding GetSet call. -/
def timeout_reply : Event :=
  Event.getset_done 0 false { name := [], value := Value.empty } true true

/-- A successful reply with the name `name` whose next-index call is
rejected by the client. -/
def reply_next_rejected (name : Name) : Event :=
  Event.getset_done 0 true { name := name, value := Value.integer_value 0 } false true

/-- A single get/set call for index 255 is outstanding. -/
def state_getset_index_255 : State :=
  { State.init 20 0 with _param_in_progress := true, _param_index := 255 }

/-! ## Theorems -/

/-- C1 (the code at the failing inputs): a counting pass for node 5 that
receives one non-empty name and then the empty name leaves
`_param_counts[5] = 0`, and one that receives three non-empty names and then
the empty name leaves `_param_counts[5] = 2`: the count recorded is the last
index looked up with success, one less than the number of successful
non-empty lookups.  The counting flag is clear in both. -/
theorem C1_count_pass_records_last_index :
    (exec env_2_9 (System.init 20 0)
        [Event.iteration (with_request (request_for MAVLINK_MSG_ID_PARAM_REQUEST_READ 5 3)),
          reply [97], reply []]).map
        (fun r => (r.1.st._param_counts.getD 5 0, r.1.st._count_in_progress, getset_calls r.2))
      = some (0, false, [(5, { index := 0 }), (5, { index := 1 })])
    ∧ (exec env_2_9 (System.init 20 0)
        [Event.iteration (with_request (request_for MAVLINK_MSG_ID_PARAM_REQUEST_READ 5 3)),
          reply [97], reply [98], reply [99], reply []]).map
        (fun r => (r.1.st._param_counts.getD 5 0, r.1.st._count_in_progress, getset_calls r.2))
      = some (2, false,
          [(5, { index := 0 }), (5, { index := 1 }), (5, { index := 2 }), (5, { index := 3 })]) := by
  constructor <;> decide

/-- C2 (the code at the failing input): with known nodes 2 and 9 and
`_param_counts[2] = 3`, an all-nodes list in which every call is accepted and
succeeds requests indices 0, 1, 2 of node 2 and then ends: the listing flag
is clear, nothing is outstanding, a further iteration does nothing, and no
call was made to node 9.  The same from the initial state, where node 2 is
counted first (four names and the empty name give `_param_counts[2] = 3`):
all eight calls go to node 2. -/
theorem C2_list_all_stops_after_first_node :
    (exec env_2_9 sys_count_2_is_3
        [Event.iteration (with_request (request_for MAVLINK_MSG_ID_PARAM_REQUEST_LIST 0 0)),
          reply [97], Event.iteration idle,
          reply [98], Event.iteration idle,
          reply [99], Event.iteration idle,
          Event.iteration idle]).map
        (fun r => (getset_calls r.2, r.1.st._param_list_in_progress,
          r.1.st._count_in_progress, r.1.st._param_in_progress, r.1.pending.getset))
      = some ([(2, { index := 0 }), (2, { index := 1 }), (2, { index := 2 })],
          false, false, false, [])
    ∧ (exec env_2_9 (System.init 20 0)
        [Event.iteration (with_request (request_for MAVLINK_MSG_ID_PARAM_REQUEST_LIST 0 0)),
          reply [97], reply [98], reply [99], reply [100], reply [], Event.iteration idle,
          reply [97], Event.iteration idle,
          reply [98], Event.iteration idle,
          reply [99], Event.iteration idle,
          Event.iteration idle]).map
        (fun r => ((getset_calls r.2).map Prod.fst, r.1.st._param_counts.getD 2 0,
          r.1.st._param_list_in_progress, r.1.st._count_in_progress,
          r.1.st._param_in_progress, r.1.pending.getset))
      = some ([2, 2, 2, 2, 2, 2, 2, 2], 3, false, false, false, []) := by
  constructor <;> decide

/-- C3 (the code at the failing input): with known nodes 4 and 6, the start
command (id 1) sends Begin to node 4; when that call completes with success
no further Begin is sent, none is outstanding, and a further iteration sends
nothing: node 6 is never contacted. -/
theorem C3_begin_walk_stops_after_first_node :
    (exec env_4_6 (System.init 20 0)
        [Event.iteration (with_command 1 0), Event.begin_done 0 true 0 true,
          Event.iteration idle]).map
        (fun r => (r.2, r.1.pending.enum_begin, r.1.st._esc_count))
      = some ([Effect.begin_call 4 65535 true], [], 1) := by
  decide

/-- C4 (the code at the failing input): enumeration is active and the claim
of index 0 by node 4 has been recorded (`_esc_enumeration_ids[0] = 4`); a
first indication from node 6 is then offered index 0, the highest claimed
index, although one node has already claimed an index. -/
theorem C4_second_node_offered_index_zero :
    (exec env_4_6 (System.init 20 0)
        [Event.iteration (with_command 1 0), Event.begin_done 0 true 0 true,
          Event.indication 4 true,
          Event.enum_getset_done 0 true
            { name := esc_index_name, value := Value.integer_value 0 } true,
          Event.indication 6 true]).map
        (fun r => (r.2, r.1.st._esc_enumeration_active,
          r.1.st._esc_enumeration_ids.getD 0 0, r.1.st._esc_enumeration_index))
      = some ([Effect.begin_call 4 65535 true,
            Effect.enum_getset_call 4
              { name := esc_index_name, value := Value.integer_value 0 } true,
            Effect.enum_save_call 4 OPCODE_SAVE true,
            Effect.enum_getset_call 6
              { name := esc_index_name, value := Value.integer_value 0 } true],
          true, 4, 0) := by
  decide

/-- C6: while the counting, the get/set or the listing flag is set, the
request block of the loop does not take a pending request: it makes no call
and returns the member variables unchanged. -/
theorem C6_request_refused_while_flow_in_progress (env : Env) (s : State)
    (request : uavcan_parameter_request_s) (call_ok : Bool)
    (h : s._count_in_progress = true ∨ s._param_in_progress = true
      ∨ s._param_list_in_progress = true) :
    run_param_request env s (some request) call_ok = (s, []) := by
  unfold run_param_request
  rcases h with h | h | h <;> simp [h]

/-- C6 at a state with the counting flag set and a read request for node 2. -/
theorem C6_request_refused_witness :
    (state_counting._count_in_progress = true ∨ state_counting._param_in_progress = true
      ∨ state_counting._param_list_in_progress = true)
    ∧ run_param_request env_2_9 state_counting
        (some (request_for MAVLINK_MSG_ID_PARAM_REQUEST_READ 2 0)) true
      = (state_counting, []) :=
  ⟨Or.inl rfl, C6_request_refused_while_flow_in_progress env_2_9 state_counting
    (request_for MAVLINK_MSG_ID_PARAM_REQUEST_READ 2 0) true (Or.inl rfl)⟩

/-- C8: when a lookup of a counting pass completes without success,
`cb_getset` stores 0 in `_param_counts` for the node of the call (whatever
was recorded there), clears the counting flag, resets the count index to 0,
changes nothing else and makes no call. -/
theorem C8_count_failure_resets (s : State) (result : GetSetResult) (call_ok adv_ok : Bool)
    (hc : s._count_in_progress = true) (hf : result.successful = false) :
    cb_getset s result call_ok adv_ok
        = ({ s with _param_counts := s._param_counts.set result.server_node_id 0
                    _count_in_progress := false
                    _count_index := 0 }, [])
    ∧ (cb_getset s result call_ok adv_ok).1._param_counts.getD result.server_node_id 0 = 0
    ∧ (cb_getset s result call_ok adv_ok).1._count_in_progress = false
    ∧ (cb_getset s result call_ok adv_ok).1._count_index = 0
    ∧ (cb_getset s result call_ok adv_ok).2 = [] := by
  have h : cb_getset s result call_ok adv_ok
        = ({ s with _param_counts := s._param_counts.set result.server_node_id 0
                    _count_in_progress := false
                    _count_index := 0 }, []) := by
    simp [cb_getset, hc, hf]
  refine ⟨h, ?_, ?_, ?_, ?_⟩ <;> rw [h]
  simp [List.getD_eq_getElem?_getD, List.getElem?_set]
  split <;> simp

/-- C8 at a pass for node 5 that had recorded 1 and then times out. -/
theorem C8_count_failure_resets_witness :
    state_counting_partial._param_counts.getD 5 0 = 1
    ∧ (cb_getset state_counting_partial failure_from_5 true true).1._param_counts.getD 5 0 = 0
    ∧ (cb_getset state_counting_partial failure_from_5 true true).1._count_in_progress = false
    ∧ (cb_getset state_counting_partial failure_from_5 true true).1._count_index = 0
    ∧ (cb_getset state_counting_partial failure_from_5 true true).2 = [] :=
  ⟨by decide,
    (C8_count_failure_resets state_counting_partial failure_from_5 true true rfl rfl).2⟩

/-- C10: a completion delivered to `cb_getset` while the counting flag is
clear leaves the get/set flag false, whether the call succeeded or not; when
it succeeded exactly one parameter value is published (by `orb_advertise`
the first time, by `orb_publish` afterwards), and when it failed nothing is
published and no effect is produced. -/
theorem C10_getset_completion_clears_flag (s : State) (result : GetSetResult)
    (call_ok adv_ok : Bool) (hc : s._count_in_progress = false) :
    (cb_getset s result call_ok adv_ok).1._param_in_progress = false
    ∧ (result.successful = true →
        publications (cb_getset s result call_ok adv_ok).2 = [make_response s result]
        ∧ getset_calls (cb_getset s result call_ok adv_ok).2 = [])
    ∧ (result.successful = false → (cb_getset s result call_ok adv_ok).2 = []) := by
  refine ⟨?_, ?_, ?_⟩
  · simp [cb_getset, hc]
  · intro hs
    cases hp : s._param_response_pub <;>
      simp [cb_getset, hc, hs, hp, publications, getset_calls]
  · intro hf
    simp [cb_getset, hc, hf]

/-- C10 at a successful and at a failed completion of a single get/set. -/
theorem C10_getset_completion_witness :
    state_getset._param_in_progress = true
    ∧ (cb_getset state_getset success_from_5 true true).1._param_in_progress = false
    ∧ publications (cb_getset state_getset success_from_5 true true).2
        = [make_response state_getset success_from_5]
    ∧ (cb_getset state_getset failure_from_5 true true).1._param_in_progress = false
    ∧ (cb_getset state_getset failure_from_5 true true).2 = [] :=
  ⟨rfl,
    (C10_getset_completion_clears_flag state_getset success_from_5 true true rfl).1,
    ((C10_getset_completion_clears_flag state_getset success_from_5 true true rfl).2.1 rfl).1,
    (C10_getset_completion_clears_flag state_getset failure_from_5 true true rfl).1,
    (C10_getset_completion_clears_flag state_getset failure_from_5 true true rfl).2.2 rfl⟩

/-! ### The parameter GetSet client is used by one call at a time -/

theorem submit_getset (es : List Effect) (P : Pending) :
    (es.foldl Pending.submit P).getset = getset_after P.getset es := by
  induction es generalizing P with
  | nil => rfl
  | cons e es ih =>
    rw [List.foldl_cons, ih]
    cases e with
    | getset_call n req acc => cases acc <;> simp [Pending.submit, getset_after]
    | begin_call n t acc => cases acc <;> simp [Pending.submit, getset_after]
    | enum_getset_call n req acc => cases acc <;> simp [Pending.submit, getset_after]
    | enum_save_call n o acc => cases acc <;> simp [Pending.submit, getset_after]
    | restart_call n o acc => cases acc <;> simp [Pending.submit, getset_after]
    | opcode_call n o acc => cases acc <;> simp [Pending.submit, getset_after]
    | param_advertise v => simp [Pending.submit, getset_after]
    | param_publish v => simp [Pending.submit, getset_after]
    | beep b => simp [Pending.submit, getset_after]

theorem getset_after_append (e1 e2 : List Effect) (p : List Nat) :
    getset_after p (e1 ++ e2) = getset_after (getset_after p e1) e2 := by
  induction e1 generalizing p with
  | nil => rfl
  | cons e es ih =>
    cases e with
    | getset_call n req acc => cases acc <;> simp [getset_after, ih]
    | _ => simp [getset_after, ih]

theorem getset_exclusive_append (e1 e2 : List Effect) (p : List Nat) :
    getset_exclusive p (e1 ++ e2)
      = (getset_exclusive p e1 && getset_exclusive (getset_after p e1) e2) := by
  induction e1 generalizing p with
  | nil => simp [getset_exclusive, getset_after]
  | cons e es ih =>
    cases e with
    | getset_call n req acc => cases acc <;> simp [getset_exclusive, getset_after, ih, Bool.and_assoc]
    | _ => simp [getset_exclusive, getset_after, ih]

theorem BlockOK.seq {p : List Nat} {r1 r2 : State × List Effect}
    (h1 : BlockOK p r1) (h2 : BlockOK (getset_after p r1.2) r2) :
    BlockOK p (r2.1, r1.2 ++ r2.2) := by
  unfold BlockOK at *
  simp only [getset_exclusive_append, getset_after_append] at *
  exact ⟨by simp [h1.1, h2.1], h2.2⟩

theorem param_count_ok (s : State) (n : Nat) (ok : Bool)
    (hp : s._param_in_progress = false) (hc : s._count_in_progress = false) (p : List Nat) (h : GetSetInv s p) :
    BlockOK p (param_count s n ok) := by
  have hp0 : p = [] := by
    rcases h with h | ⟨m, _, h | h⟩
    · exact h
    · simp [hp] at h
    · simp [hc] at h
  subst hp0
  cases ok <;> simp [BlockOK, param_count, getset_exclusive, getset_after, GetSetInv]

theorem run_list_next_ok (s : State) (ok : Bool) (p : List Nat) (h : GetSetInv s p) :
    BlockOK p (run_list_next s ok) := by
  unfold run_list_next
  split
  · rename_i hg
    simp at hg
    have hp0 : p = [] := by
      rcases h with h | ⟨m, _, h | h⟩
      · exact h
      · simp [hg.1.2] at h
      · simp [hg.2] at h
    subst hp0
    cases ok <;> simp [BlockOK, getset_exclusive, getset_after, GetSetInv]
  · exact ⟨rfl, h⟩

theorem GetSetInv.idle {s : State} {p : List Nat} (h : GetSetInv s p)
    (hp : s._param_in_progress = false) (hc : s._count_in_progress = false) : p = [] := by
  rcases h with h | ⟨m, _, h | h⟩
  · exact h
  · simp [hp] at h
  · simp [hc] at h

theorem BlockOK.skip {s : State} {p : List Nat} (h : GetSetInv s p) : BlockOK p (s, []) :=
  ⟨rfl, h⟩

theorem BlockOK.frame {s : State} {p : List Nat} (h : GetSetInv s p) (r : State × List Effect)
    (hp : r.1._param_in_progress = s._param_in_progress)
    (hc : r.1._count_in_progress = s._count_in_progress)
    (he : getset_calls r.2 = []) : BlockOK p r := by
  have key : ∀ (es : List Effect) (q : List Nat), getset_calls es = [] →
      getset_exclusive q es = true ∧ getset_after q es = q := by
    intro es
    induction es with
    | nil => intro q _; exact ⟨rfl, rfl⟩
    | cons e es ih =>
      intro q hq
      cases e <;> simp [getset_calls] at hq <;> simpa [getset_exclusive, getset_after] using ih q hq
  obtain ⟨h1, h2⟩ := key r.2 p he
  refine ⟨h1, ?_⟩
  rw [h2]
  unfold GetSetInv at *
  rw [hp, hc]
  exact h

theorem run_list_advance_ok (env : Env) (s : State) (ok : Bool) (p : List Nat)
    (h : GetSetInv s p) : BlockOK p (run_list_advance env s ok) := by
  unfold run_list_advance
  split
  · rename_i hg
    simp at hg
    have hp0 : p = [] := h.idle hg.1.2 hg.2
    subst hp0
    cases ok <;> simp only [param_count] <;> (repeat' split) <;>
      simp [BlockOK, getset_exclusive, getset_after, GetSetInv]
  · exact BlockOK.skip h

theorem run_param_request_ok (env : Env) (s : State)
    (req : Option uavcan_parameter_request_s) (ok : Bool) (p : List Nat)
    (h : GetSetInv s p) : BlockOK p (run_param_request env s req ok) := by
  unfold run_param_request
  cases req with
  | none => exact BlockOK.skip h
  | some request =>
    simp only
    split
    · rename_i hg
      simp at hg
      have hp0 : p = [] := h.idle hg.1.2 hg.2
      subst hp0
      cases ok <;> simp only [param_count, send_getset] <;> (repeat' split) <;>
        simp [BlockOK, getset_exclusive, getset_after, GetSetInv]
    · exact BlockOK.skip h

theorem run_command_ok (env : Env) (s : State) (cmd : Option vehicle_command_s) (ok : Bool)
    (p : List Nat) (h : GetSetInv s p) : BlockOK p (run_command env s cmd ok) := by
  apply BlockOK.frame h
  all_goals
    unfold run_command
    cases cmd with
    | none => rfl
    | some c =>
      cases ok <;> simp only <;> (repeat' split) <;> simp [getset_calls]

theorem cb_getset_ok (s : State) (result : GetSetResult) (call_ok adv_ok : Bool) :
    BlockOK [] (cb_getset s result call_ok adv_ok) := by
  unfold cb_getset
  cases call_ok <;> simp only <;> (repeat' split) <;>
    simp_all [BlockOK, getset_exclusive, getset_after, GetSetInv]

theorem run_iteration_ok (env : Env) (s : State) (inp : TickInput) (p : List Nat)
    (h : GetSetInv s p) : BlockOK p (run_iteration env s inp) := by
  have h1 := run_param_request_ok env s inp.param_request inp.request_ok p h
  have h2 := run_list_advance_ok env _ inp.advance_ok _ h1.2
  have h12 := BlockOK.seq h1 h2
  have h3 := run_list_next_ok _ inp.list_ok _ h12.2
  have h123 := BlockOK.seq h12 h3
  have h4 := run_command_ok env _ inp.cmd inp.cmd_ok _ h123.2
  exact BlockOK.seq h123 h4

theorem BlockOK.after {p : List Nat} {P : Pending} {r : State × List Effect}
    {sys1 : System} {eff : List Effect}
    (hs : System.after P r = (sys1, eff)) (hP : P.getset = p) (h : BlockOK p r) :
    getset_exclusive p eff = true ∧ GetSetInv sys1.st sys1.pending.getset := by
  simp only [System.after, Prod.mk.injEq] at hs
  obtain ⟨rfl, rfl⟩ := hs
  simp only [submit_getset, hP]
  exact h

theorem step_ok (env : Env) (sys sys1 : System) (ev : Event) (eff : List Effect)
    (h : GetSetInv sys.st sys.pending.getset) (hs : step env sys ev = some (sys1, eff)) :
    getset_exclusive (getset_pending_at_entry sys ev) eff = true
      ∧ GetSetInv sys1.st sys1.pending.getset := by
  cases ev with
  | iteration inp =>
    simp only [step, Option.some.injEq] at hs
    exact BlockOK.after hs rfl (run_iteration_ok env sys.st inp _ h)
  | getset_done k successful response call_ok adv_ok =>
    simp only [step] at hs
    split at hs
    · simp at hs
    · rename_i node hk
      simp only [Option.some.injEq] at hs
      have hlen : sys.pending.getset.eraseIdx k = [] := by
        rcases h with h | ⟨n, h, _⟩
        · rw [h] at hk; simp at hk
        · rw [h] at hk ⊢
          cases k with
          | zero => rfl
          | succ k => simp at hk
      simp only [getset_pending_at_entry, hlen]
      exact BlockOK.after hs hlen (cb_getset_ok sys.st _ call_ok adv_ok)
  | begin_done k successful error call_ok =>
    simp only [step] at hs
    split at hs
    · simp at hs
    · rename_i node hk
      simp only [Option.some.injEq] at hs
      refine BlockOK.after hs rfl ?_
      apply BlockOK.frame h <;> unfold cb_enumeration_begin <;>
        cases call_ok <;> simp only <;> (repeat' split) <;> simp [getset_calls]
  | indication src call_ok =>
    simp only [step, Option.some.injEq] at hs
    refine BlockOK.after hs rfl ?_
    apply BlockOK.frame h <;> unfold cb_enumeration_indication <;>
      cases call_ok <;> simp only <;> (repeat' split) <;> simp [getset_calls]
  | enum_getset_done k successful response call_ok =>
    simp only [step] at hs
    split at hs
    · simp at hs
    · rename_i node hk
      simp only [Option.some.injEq] at hs
      refine BlockOK.after hs rfl ?_
      apply BlockOK.frame h <;> unfold cb_enumeration_getset <;>
        cases call_ok <;> simp only <;> (repeat' split) <;> simp [getset_calls]
  | enum_save_done k successful ok call_ok =>
    simp only [step] at hs
    split at hs
    · simp at hs
    · rename_i node hk
      simp only [Option.some.injEq] at hs
      refine BlockOK.after hs rfl ?_
      apply BlockOK.frame h <;> unfold cb_enumeration_save <;>
        cases call_ok <;> simp only <;> (repeat' split) <;> simp [getset_calls]
  | restart_done k successful ok =>
    simp only [step] at hs
    split at hs
    · simp at hs
    · rename_i node hk
      simp only [Option.some.injEq] at hs
      refine BlockOK.after hs rfl ?_
      apply BlockOK.frame h <;> simp [cb_restart, getset_calls]
  | opcode_done k successful ok =>
    simp only [step] at hs
    split at hs
    · simp at hs
    · rename_i node hk
      simp only [Option.some.injEq] at hs
      refine BlockOK.after hs rfl ?_
      apply BlockOK.frame h <;> simp [cb_opcode, getset_calls]

theorem reachable_getset_inv (MaxSize : Nat) (sys : System) (hr : Reachable MaxSize sys) :
    GetSetInv sys.st sys.pending.getset := by
  induction hr with
  | init esc_count h => exact Or.inl rfl
  | step env sys ev sys1 eff _ _ hs ih => exact (step_ok env sys sys1 ev eff ih hs).2

theorem GetSetInv.length_le {s : State} {p : List Nat} (h : GetSetInv s p) : p.length ≤ 1 := by
  rcases h with h | ⟨n, h, _⟩ <;> simp [h]

/-- C5: in every system reachable from the initial one by loop iterations
and deliveries (a delivery only for an outstanding call), every event makes
its calls on the parameter GetSet client while no earlier call on that client
is outstanding (`getset_exclusive`, from the registry the code of the event
starts with), and at most one such call is outstanding before and after the
event. -/
theorem C5_getset_calls_exclusive (MaxSize : Nat) (sys : System) (hr : Reachable MaxSize sys)
    (env : Env) (ev : Event) (sys1 : System) (eff : List Effect)
    (hs : step env sys ev = some (sys1, eff)) :
    getset_exclusive (getset_pending_at_entry sys ev) eff = true
    ∧ sys.pending.getset.length ≤ 1 ∧ sys1.pending.getset.length ≤ 1 := by
  have hi := reachable_getset_inv MaxSize sys hr
  have hstep := step_ok env sys sys1 ev eff hi hs
  exact ⟨hstep.1, hi.length_le, hstep.2.length_le⟩

/-- C5 at the reachable system in which the first lookup of a counting pass
for node 5 is outstanding, and the delivery of its reply. -/
theorem C5_getset_calls_exclusive_witness :
    step env_2_9 sys_counting_5 (reply [97])
        = some (sys_counting_5_next, [Effect.getset_call 5 { index := 1 } true])
    ∧ (getset_exclusive (getset_pending_at_entry sys_counting_5 (reply [97]))
          [Effect.getset_call 5 { index := 1 } true] = true
      ∧ sys_counting_5.pending.getset.length ≤ 1
      ∧ sys_counting_5_next.pending.getset.length ≤ 1) :=
  ⟨by decide,
    C5_getset_calls_exclusive 20 sys_counting_5
      (Reachable.step env_2_9 (System.init 20 0)
        (Event.iteration (with_request (request_for MAVLINK_MSG_ID_PARAM_REQUEST_READ 5 3)))
        sys_counting_5 [Effect.getset_call 5 { index := 0 } true]
        (Reachable.init 0 (by decide)) rfl (by decide))
      env_2_9 (reply [97]) sys_counting_5_next
      [Effect.getset_call 5 { index := 1 } true] (by decide)⟩


/-! ### A list of the parameters of one node -/

theorem after_st (P : Pending) (r : State × List Effect) : (System.after P r).1.st = r.1 := rfl
theorem after_eff (P : Pending) (r : State × List Effect) : (System.after P r).2 = r.2 := rfl
theorem after_getset (P : Pending) (r : State × List Effect) :
    (System.after P r).1.pending.getset = getset_after P.getset r.2 := by
  simp [System.after, submit_getset]

theorem run_list_next_skip (st : State) (ok : Bool)
    (h1 : st._param_list_in_progress = false) :
    run_list_next st ok = (st, []) := by
  simp [run_list_next, h1]

theorem getset_calls_append (e1 e2 : List Effect) :
    getset_calls (e1 ++ e2) = getset_calls e1 ++ getset_calls e2 := by
  induction e1 with
  | nil => rfl
  | cons e es ih => cases e <;> simp [getset_calls, ih]

theorem publications_append (e1 e2 : List Effect) :
    publications (e1 ++ e2) = publications e1 ++ publications e2 := by
  induction e1 with
  | nil => rfl
  | cons e es ih => cases e <;> simp [publications, ih]

theorem getset_after_of_no_calls (es : List Effect) (q : List Nat)
    (h : getset_calls es = []) : getset_after q es = q := by
  induction es with
  | nil => rfl
  | cons e es ih =>
    cases e <;> simp [getset_calls] at h <;> simpa [getset_after] using ih h

theorem run_command_bridge (env : Env) (s : State) (cmd : Option vehicle_command_s) (ok : Bool) :
    (run_command env s cmd ok).1._count_in_progress = s._count_in_progress
    ∧ (run_command env s cmd ok).1._param_in_progress = s._param_in_progress
    ∧ (run_command env s cmd ok).1._param_list_in_progress = s._param_list_in_progress
    ∧ getset_calls (run_command env s cmd ok).2 = []
    ∧ publications (run_command env s cmd ok).2 = [] := by
  unfold run_command
  cases cmd with
  | none => simp [getset_calls, publications]
  | some c =>
    cases ok <;> simp only <;> (repeat' split) <;> simp [getset_calls, publications]

theorem BridgeFrame.count {N : Nat} {sys sys1 : System} {P : Pending}
    {r : State × List Effect} {eff : List Effect}
    (hs : System.after P r = (sys1, eff)) (hP : P.getset = sys.pending.getset)
    (hf : BridgeFrame sys.st r) (h : CountInv N sys) :
    (CountInv N sys1 ∨ Quiet sys1) ∧ publications eff = []
      ∧ ∀ c ∈ getset_calls eff, is_lookup N c := by
  simp only [System.after, Prod.mk.injEq] at hs
  obtain ⟨rfl, rfl⟩ := hs
  obtain ⟨f1, f2, f3, f4, f5⟩ := hf
  obtain ⟨h1, h2, h3, h4⟩ := h
  refine ⟨Or.inl ⟨by rw [f1]; exact h1, by rw [f2]; exact h2, by rw [f3]; exact h3, ?_⟩,
    f5, by simp [f4]⟩
  simp only [submit_getset, hP, h4]
  exact getset_after_of_no_calls _ _ f4

theorem BridgeFrame.quiet {sys sys1 : System} {P : Pending}
    {r : State × List Effect} {eff : List Effect}
    (hs : System.after P r = (sys1, eff)) (hP : P.getset = sys.pending.getset)
    (hf : BridgeFrame sys.st r) (h : Quiet sys) :
    Quiet sys1 ∧ publications eff = [] ∧ getset_calls eff = [] := by
  simp only [System.after, Prod.mk.injEq] at hs
  obtain ⟨rfl, rfl⟩ := hs
  obtain ⟨f1, f2, f3, f4, f5⟩ := hf
  obtain ⟨⟨h1, h2, h3⟩, h4⟩ := h
  refine ⟨⟨⟨by rw [f3]; exact h1, by rw [f2]; exact h2, by rw [f1]; exact h3⟩, ?_⟩, f5, f4⟩
  simp only [submit_getset, hP, h4]
  exact getset_after_of_no_calls _ _ f4

theorem run_iteration_eq_cmd (env : Env) (s : State) (inp : TickInput)
    {s1 s2 s3 : State} {e1 e2 e3 : List Effect}
    (h1 : run_param_request env s inp.param_request inp.request_ok = (s1, e1))
    (h2 : run_list_advance env s1 inp.advance_ok = (s2, e2))
    (h3 : run_list_next s2 inp.list_ok = (s3, e3)) :
    run_iteration env s inp
      = ((run_command env s3 inp.cmd inp.cmd_ok).1,
          e1 ++ e2 ++ e3 ++ (run_command env s3 inp.cmd inp.cmd_ok).2) := by
  simp [run_iteration, h1, h2, h3]

theorem run_iteration_bridge (env : Env) (s : State) (inp : TickInput)
    (hn : inp.param_request = none) (hl : s._param_list_in_progress = false) :
    BridgeFrame s (run_iteration env s inp) := by
  have e := run_iteration_eq_cmd env s inp (by rw [hn]; rfl)
    (show run_list_advance env s inp.advance_ok = (s, []) by simp [run_list_advance, hl])
    (run_list_next_skip _ _ hl)
  rw [e]
  obtain ⟨c1, c2, c3, c4, c5⟩ := run_command_bridge env s inp.cmd inp.cmd_ok
  exact ⟨c1, c2, c3, by simpa using c4, by simpa using c5⟩

theorem cb_enumeration_begin_bridge (env : Env) (s : State) (n : Nat) (b : Bool) (e : Nat)
    (ok : Bool) : BridgeFrame s (cb_enumeration_begin env s n b e ok) := by
  unfold cb_enumeration_begin BridgeFrame
  cases ok <;> simp only <;> (repeat' split) <;> simp [getset_calls, publications]

theorem cb_enumeration_indication_bridge (s : State) (n : Nat) (ok : Bool) :
    BridgeFrame s (cb_enumeration_indication s n ok) := by
  unfold cb_enumeration_indication BridgeFrame
  cases ok <;> simp only <;> (repeat' split) <;> simp [getset_calls, publications]

theorem cb_enumeration_getset_bridge (env : Env) (s : State) (r : GetSetResult) (ok : Bool) :
    BridgeFrame s (cb_enumeration_getset env s r ok) := by
  unfold cb_enumeration_getset BridgeFrame
  cases ok <;> simp only <;> (repeat' split) <;> simp [getset_calls, publications]

theorem cb_enumeration_save_bridge (env : Env) (s : State) (a b ok : Bool) :
    BridgeFrame s (cb_enumeration_save env s a b ok) := by
  unfold cb_enumeration_save BridgeFrame
  cases ok <;> simp only <;> (repeat' split) <;> simp [getset_calls, publications]

theorem cb_restart_bridge (s : State) (a b : Bool) : BridgeFrame s (cb_restart s a b) := by
  simp [cb_restart, BridgeFrame, getset_calls, publications]

theorem cb_opcode_bridge (s : State) (a b : Bool) : BridgeFrame s (cb_opcode s a b) := by
  simp [cb_opcode, BridgeFrame, getset_calls, publications]

theorem cb_getset_counting (s : State) (result : GetSetResult) (call_ok adv_ok : Bool)
    (hc : s._count_in_progress = true) (hp : s._param_in_progress = false)
    (hl : s._param_list_in_progress = false) :
    (cb_getset s result call_ok adv_ok).1._param_in_progress = false
    ∧ (cb_getset s result call_ok adv_ok).1._param_list_in_progress = false
    ∧ publications (cb_getset s result call_ok adv_ok).2 = []
    ∧ (∀ c ∈ getset_calls (cb_getset s result call_ok adv_ok).2,
        is_lookup result.server_node_id c)
    ∧ (((cb_getset s result call_ok adv_ok).1._count_in_progress = true
          ∧ getset_after [] (cb_getset s result call_ok adv_ok).2 = [result.server_node_id])
        ∨ ((cb_getset s result call_ok adv_ok).1._count_in_progress = false
          ∧ getset_after [] (cb_getset s result call_ok adv_ok).2 = [])) := by
  unfold cb_getset
  cases call_ok <;> cases hs : result.successful <;>
    cases hn : (result.response.name.length != 0) <;>
    simp [hc, hp, hl, hs, hn, publications, getset_calls, getset_after, is_lookup]

theorem count_step (env : Env) (N : Nat) (sys sys1 : System) (ev : Event) (eff : List Effect)
    (h : CountInv N sys) (hn : ev.no_new_request = true)
    (hs : step env sys ev = some (sys1, eff)) :
    (CountInv N sys1 ∨ Quiet sys1) ∧ publications eff = []
      ∧ ∀ c ∈ getset_calls eff, is_lookup N c := by
  cases ev with
  | iteration inp =>
    simp only [step, Option.some.injEq] at hs
    have hnone : inp.param_request = none := by
      simpa [Event.no_new_request, Option.isNone_iff_eq_none] using hn
    exact BridgeFrame.count hs rfl (run_iteration_bridge env sys.st inp hnone h.2.2.1) h
  | getset_done k successful response call_ok adv_ok =>
    obtain ⟨h1, h2, h3, h4⟩ := h
    simp only [step, h4] at hs
    cases k with
    | succ k => simp at hs
    | zero =>
      simp only [List.get?_cons_zero, Option.some.injEq] at hs
      obtain ⟨c1, c2, c3, c4, c5⟩ := cb_getset_counting sys.st
        { server_node_id := N, successful := successful, response := response }
        call_ok adv_ok h1 h2 h3
      simp only [System.after, Prod.mk.injEq] at hs
      obtain ⟨rfl, rfl⟩ := hs
      refine ⟨?_, c3, c4⟩
      rcases c5 with ⟨d1, d2⟩ | ⟨d1, d2⟩
      · exact Or.inl ⟨d1, c1, c2, by simpa [submit_getset] using d2⟩
      · exact Or.inr ⟨⟨c2, c1, d1⟩, by simpa [submit_getset] using d2⟩
  | begin_done k successful error call_ok =>
    simp only [step] at hs
    split at hs
    · simp at hs
    · simp only [Option.some.injEq] at hs
      exact BridgeFrame.count hs rfl (cb_enumeration_begin_bridge env _ _ _ _ _) h
  | indication src call_ok =>
    simp only [step, Option.some.injEq] at hs
    exact BridgeFrame.count hs rfl (cb_enumeration_indication_bridge _ _ _) h
  | enum_getset_done k successful response call_ok =>
    simp only [step] at hs
    split at hs
    · simp at hs
    · simp only [Option.some.injEq] at hs
      exact BridgeFrame.count hs rfl (cb_enumeration_getset_bridge env _ _ _) h
  | enum_save_done k successful ok call_ok =>
    simp only [step] at hs
    split at hs
    · simp at hs
    · simp only [Option.some.injEq] at hs
      exact BridgeFrame.count hs rfl (cb_enumeration_save_bridge env _ _ _ _) h
  | restart_done k successful ok =>
    simp only [step] at hs
    split at hs
    · simp at hs
    · simp only [Option.some.injEq] at hs
      exact BridgeFrame.count hs rfl (cb_restart_bridge _ _ _) h
  | opcode_done k successful ok =>
    simp only [step] at hs
    split at hs
    · simp at hs
    · simp only [Option.some.injEq] at hs
      exact BridgeFrame.count hs rfl (cb_opcode_bridge _ _ _) h

theorem quiet_step (env : Env) (sys sys1 : System) (ev : Event) (eff : List Effect)
    (h : Quiet sys) (hn : ev.no_new_request = true)
    (hs : step env sys ev = some (sys1, eff)) :
    Quiet sys1 ∧ publications eff = [] ∧ getset_calls eff = [] := by
  cases ev with
  | iteration inp =>
    simp only [step, Option.some.injEq] at hs
    have hnone : inp.param_request = none := by
      simpa [Event.no_new_request, Option.isNone_iff_eq_none] using hn
    exact BridgeFrame.quiet hs rfl (run_iteration_bridge env sys.st inp hnone h.1.1) h
  | getset_done k successful response call_ok adv_ok =>
    simp [step, h.2] at hs
  | begin_done k successful error call_ok =>
    simp only [step] at hs
    split at hs
    · simp at hs
    · simp only [Option.some.injEq] at hs
      exact BridgeFrame.quiet hs rfl (cb_enumeration_begin_bridge env _ _ _ _ _) h
  | indication src call_ok =>
    simp only [step, Option.some.injEq] at hs
    exact BridgeFrame.quiet hs rfl (cb_enumeration_indication_bridge _ _ _) h
  | enum_getset_done k successful response call_ok =>
    simp only [step] at hs
    split at hs
    · simp at hs
    · simp only [Option.some.injEq] at hs
      exact BridgeFrame.quiet hs rfl (cb_enumeration_getset_bridge env _ _ _) h
  | enum_save_done k successful ok call_ok =>
    simp only [step] at hs
    split at hs
    · simp at hs
    · simp only [Option.some.injEq] at hs
      exact BridgeFrame.quiet hs rfl (cb_enumeration_save_bridge env _ _ _ _) h
  | restart_done k successful ok =>
    simp only [step] at hs
    split at hs
    · simp at hs
    · simp only [Option.some.injEq] at hs
      exact BridgeFrame.quiet hs rfl (cb_restart_bridge _ _ _) h
  | opcode_done k successful ok =>
    simp only [step] at hs
    split at hs
    · simp at hs
    · simp only [Option.some.injEq] at hs
      exact BridgeFrame.quiet hs rfl (cb_opcode_bridge _ _ _) h

theorem exec_cons_inv (env : Env) (sys : System) (ev : Event) (evs : List Event)
    (r : System × List Effect) (h : exec env sys (ev :: evs) = some r) :
    ∃ r1 r2, step env sys ev = some r1 ∧ exec env r1.1 evs = some r2
      ∧ r = (r2.1, r1.2 ++ r2.2) := by
  simp only [exec] at h
  split at h
  · simp at h
  · rename_i r1 h1
    split at h
    · simp at h
    · rename_i r2 h2
      simp only [Option.some.injEq] at h
      exact ⟨r1, r2, h1, h2, h.symm⟩

theorem quiet_exec (env : Env) (evs : List Event) :
    ∀ (sys sys1 : System) (eff : List Effect), Quiet sys →
      (∀ ev ∈ evs, ev.no_new_request = true) → exec env sys evs = some (sys1, eff) →
      Quiet sys1 ∧ publications eff = [] ∧ getset_calls eff = [] := by
  induction evs with
  | nil =>
    intro sys sys1 eff h _ hex
    simp only [exec, Option.some.injEq, Prod.mk.injEq] at hex
    obtain ⟨rfl, rfl⟩ := hex
    exact ⟨h, rfl, rfl⟩
  | cons ev evs ih =>
    intro sys sys1 eff h hn hex
    obtain ⟨r1, r2, h1, h2, he⟩ := exec_cons_inv env sys ev evs _ hex
    simp only [Prod.mk.injEq] at he
    obtain ⟨rfl, rfl⟩ := he
    obtain ⟨q1, p1, g1⟩ := quiet_step env sys r1.1 ev r1.2 h (hn ev (by simp)) h1
    obtain ⟨q2, p2, g2⟩ := ih r1.1 r2.1 r2.2 q1 (fun e he => hn e (by simp [he])) h2
    exact ⟨q2, by rw [publications_append, p1, p2]; rfl,
      by rw [getset_calls_append, g1, g2]; rfl⟩

theorem count_exec (env : Env) (N : Nat) (evs : List Event) :
    ∀ (sys sys1 : System) (eff : List Effect), CountInv N sys →
      (∀ ev ∈ evs, ev.no_new_request = true) → exec env sys evs = some (sys1, eff) →
      (CountInv N sys1 ∨ Quiet sys1) ∧ publications eff = []
        ∧ ∀ c ∈ getset_calls eff, is_lookup N c := by
  induction evs with
  | nil =>
    intro sys sys1 eff h _ hex
    simp only [exec, Option.some.injEq, Prod.mk.injEq] at hex
    obtain ⟨rfl, rfl⟩ := hex
    exact ⟨Or.inl h, rfl, by simp [getset_calls]⟩
  | cons ev evs ih =>
    intro sys sys1 eff h hn hex
    obtain ⟨r1, r2, h1, h2, he⟩ := exec_cons_inv env sys ev evs _ hex
    simp only [Prod.mk.injEq] at he
    obtain ⟨rfl, rfl⟩ := he
    obtain ⟨q1, p1, g1⟩ := count_step env N sys r1.1 ev r1.2 h (hn ev (by simp)) h1
    rcases q1 with q1 | q1
    · obtain ⟨q2, p2, g2⟩ := ih r1.1 r2.1 r2.2 q1 (fun e he => hn e (by simp [he])) h2
      refine ⟨q2, by rw [publications_append, p1, p2]; rfl, ?_⟩
      intro c hc
      rw [getset_calls_append, List.mem_append] at hc
      rcases hc with hc | hc
      · exact g1 c hc
      · exact g2 c hc
    · obtain ⟨q2, p2, g2⟩ := quiet_exec env evs r1.1 r2.1 r2.2 q1
        (fun e he => hn e (by simp [he])) h2
      refine ⟨Or.inr q2, by rw [publications_append, p1, p2]; rfl, ?_⟩
      intro c hc
      rw [getset_calls_append, g2, List.append_nil] at hc
      exact g1 c hc

theorem run_param_request_uncounted (env : Env) (s : State)
    (request : uavcan_parameter_request_s) (ok : Bool) (hi : FlowsIdle s)
    (hnode : request.node_id ≠ MAV_COMP_ID_ALL)
    (hcount : s._param_counts.getD request.node_id 0 = 0) :
    run_param_request env s (some request) ok = param_count s request.node_id ok := by
  obtain ⟨h1, h2, h3⟩ := hi
  simp only [List.getD_eq_getElem?_getD] at hcount
  simp [run_param_request, h1, h2, h3, hcount, hnode]

/-- C9: a request (of any kind) for one node `N != 0` with
`_param_counts[N] = 0`, taken when no parameter flow is in progress: the
request block makes exactly one call, the lookup of index 0 of `N`, sets the
counting flag exactly when the call is accepted and sets neither the get/set
nor the listing flag, and the whole iteration makes no other GetSet call.
When the call was accepted, then over any later events that bring no new
request nothing is published, every GetSet call is a lookup of the counting
pass for `N`, and the get/set and listing flags stay clear; and once the
counting flag is clear nothing is outstanding, and from then on no GetSet
call is made, nothing is published and the three flags stay clear (the
request is not replayed). -/
theorem C9_uncounted_node_request_not_replayed (env : Env) (sys : System)
    (request : uavcan_parameter_request_s) (inp : TickInput) (evs1 evs2 : List Event)
    (hi : FlowsIdle sys.st) (hp : sys.pending.getset = [])
    (hnode : request.node_id ≠ MAV_COMP_ID_ALL)
    (hcount : sys.st._param_counts.getD request.node_id 0 = 0)
    (hreq : inp.param_request = some request)
    (hn1 : ∀ ev ∈ evs1, ev.no_new_request = true)
    (hn2 : ∀ ev ∈ evs2, ev.no_new_request = true) :
    (run_param_request env sys.st (some request) inp.request_ok).2
        = [Effect.getset_call request.node_id { index := 0 } inp.request_ok]
    ∧ (run_param_request env sys.st (some request) inp.request_ok).1._count_in_progress
        = inp.request_ok
    ∧ (run_param_request env sys.st (some request) inp.request_ok).1._param_in_progress = false
    ∧ (run_param_request env sys.st (some request) inp.request_ok).1._param_list_in_progress
        = false
    ∧ getset_calls (run_iteration env sys.st inp).2 = [(request.node_id, { index := 0 })]
    ∧ (inp.request_ok = true →
        ∀ sys2 eff2,
          exec env (System.after sys.pending (run_iteration env sys.st inp)).1 evs1
            = some (sys2, eff2) →
          publications eff2 = []
          ∧ (∀ c ∈ getset_calls eff2, is_lookup request.node_id c)
          ∧ sys2.st._param_in_progress = false ∧ sys2.st._param_list_in_progress = false
          ∧ (sys2.st._count_in_progress = false →
              sys2.pending.getset = []
              ∧ ∀ sys3 eff3, exec env sys2 evs2 = some (sys3, eff3) →
                  getset_calls eff3 = [] ∧ publications eff3 = [] ∧ FlowsIdle sys3.st)) := by
  have e1 := run_param_request_uncounted env sys.st request inp.request_ok hi hnode hcount
  obtain ⟨i1, i2, i3⟩ := hi
  have hpc : (param_count sys.st request.node_id inp.request_ok).2
        = [Effect.getset_call request.node_id { index := 0 } inp.request_ok]
      ∧ (param_count sys.st request.node_id inp.request_ok).1._count_in_progress
        = inp.request_ok
      ∧ (param_count sys.st request.node_id inp.request_ok).1._param_in_progress = false
      ∧ (param_count sys.st request.node_id inp.request_ok).1._param_list_in_progress
        = false := by
    cases inp.request_ok <;> simp [param_count, i1, i2, i3]
  rw [← e1] at hpc
  obtain ⟨p1, p2, p3, p4⟩ := hpc
  generalize hr : run_param_request env sys.st (some request) inp.request_ok = r at *
  have hit := run_iteration_eq_cmd env sys.st inp
    (show run_param_request env sys.st inp.param_request inp.request_ok = (r.1, r.2) by
      rw [hreq, hr])
    (show run_list_advance env r.1 inp.advance_ok = (r.1, []) by simp [run_list_advance, p4])
    (run_list_next_skip _ _ p4)
  obtain ⟨c1, c2, c3, c4, c5⟩ := run_command_bridge env r.1 inp.cmd inp.cmd_ok
  have hcalls : getset_calls (run_iteration env sys.st inp).2
      = [(request.node_id, { index := 0 })] := by
    rw [hit]
    simp [getset_calls_append, c4, p1, getset_calls]
  refine ⟨p1, p2, p3, p4, hcalls, ?_⟩
  intro hok sys2 eff2 hex
  have hinv : CountInv request.node_id
      (System.after sys.pending (run_iteration env sys.st inp)).1 := by
    refine ⟨?_, ?_, ?_, ?_⟩
    · rw [after_st, hit]; simp only; rw [c1, p2, hok]
    · rw [after_st, hit]; simp only; rw [c2, p3]
    · rw [after_st, hit]; simp only; rw [c3, p4]
    · rw [after_getset, hp, hit]
      simp only [List.append_nil, getset_after_append, p1, hok, getset_after]
      exact getset_after_of_no_calls _ _ c4
  obtain ⟨q, hpub, hlook⟩ := count_exec env request.node_id evs1 _ sys2 eff2 hinv hn1 hex
  refine ⟨hpub, hlook, ?_, ?_, ?_⟩
  · rcases q with q | q
    · exact q.2.1
    · exact q.1.2.1
  · rcases q with q | q
    · exact q.2.2.1
    · exact q.1.1
  · intro hcf
    rcases q with q | q
    · rw [q.1] at hcf; simp at hcf
    · refine ⟨q.2, ?_⟩
      intro sys3 eff3 hex3
      obtain ⟨q3, p3, g3⟩ := quiet_exec env evs2 sys2 sys3 eff3 q hn2 hex3
      exact ⟨g3, p3, q3.1⟩

/-- C9 at a read of index 3 of node 5 on the initial system, a counting pass
of one name and the empty name, and one more iteration. -/
theorem C9_uncounted_node_request_witness :
    exec env_2_9
        (System.after (System.init 20 0).pending
          (run_iteration env_2_9 (System.init 20 0).st
            (with_request (request_for MAVLINK_MSG_ID_PARAM_REQUEST_READ 5 3)))).1
        [reply [97], reply []]
      = some (System.init 20 0, [Effect.getset_call 5 { index := 1 } true])
    ∧ getset_calls (run_iteration env_2_9 (System.init 20 0).st
        (with_request (request_for MAVLINK_MSG_ID_PARAM_REQUEST_READ 5 3))).2
      = [(5, { index := 0 })]
    ∧ publications [Effect.getset_call 5 { index := 1 } true] = []
    ∧ (System.init 20 0).st._param_in_progress = false
    ∧ (System.init 20 0).pending.getset = [] := by
  have hex : exec env_2_9
        (System.after (System.init 20 0).pending
          (run_iteration env_2_9 (System.init 20 0).st
            (with_request (request_for MAVLINK_MSG_ID_PARAM_REQUEST_READ 5 3)))).1
        [reply [97], reply []]
      = some (System.init 20 0, [Effect.getset_call 5 { index := 1 } true]) := by decide
  obtain ⟨_, _, _, _, h5, h6⟩ :=
    C9_uncounted_node_request_not_replayed env_2_9 (System.init 20 0)
      (request_for MAVLINK_MSG_ID_PARAM_REQUEST_READ 5 3)
      (with_request (request_for MAVLINK_MSG_ID_PARAM_REQUEST_READ 5 3))
      [reply [97], reply []] [Event.iteration idle]
      ⟨rfl, rfl, rfl⟩ rfl (by decide) (by decide) rfl (by decide) (by decide)
  have g := h6 rfl _ _ hex
  exact ⟨hex, h5, g.1, g.2.2.1, (g.2.2.2.2 rfl).1⟩

/-! ### Published values, commands and ESC enumeration -/

/-- C11: a successful completion delivered to `cb_getset` while the counting
flag is clear publishes one value: its node address is the node of the call,
its index is `_param_index` at the time of the completion, its count is
`_param_counts` of that node, and its type tag and value follow the tag of
the response: integer gives int64 with the integer in `int_value`, real
gives real32 with the float in `real_value`, boolean gives uint8 with the
value in `int_value`, each value unchanged. -/
theorem C11_published_value (s : State) (result : GetSetResult) (call_ok adv_ok : Bool)
    (hc : s._count_in_progress = false) (hs : result.successful = true) :
    publications (cb_getset s result call_ok adv_ok).2 = [make_response s result]
    ∧ (make_response s result).node_id = result.server_node_id
    ∧ (make_response s result).param_index = (s._param_index : Int)
    ∧ (make_response s result).param_count = s._param_counts.getD result.server_node_id 0
    ∧ (∀ v, result.response.value = Value.integer_value v →
        (make_response s result).param_type = some MAV_PARAM_TYPE_INT64
        ∧ (make_response s result).int_value = some v)
    ∧ (∀ v, result.response.value = Value.real_value v →
        (make_response s result).param_type = some MAV_PARAM_TYPE_REAL32
        ∧ (make_response s result).real_value = some v)
    ∧ (∀ v, result.response.value = Value.boolean_value v →
        (make_response s result).param_type = some MAV_PARAM_TYPE_UINT8
        ∧ (make_response s result).int_value = some (v : Int)) := by
  refine ⟨?_, ?_, ?_, ?_, ?_, ?_, ?_⟩
  · cases hp : s._param_response_pub <;> simp [cb_getset, hc, hs, hp, publications]
  · cases hv : result.response.value <;> simp [make_response, hv]
  · cases hv : result.response.value <;> simp [make_response, hv]
  · cases hv : result.response.value <;> simp [make_response, hv]
  · intro v hv; simp [make_response, hv]
  · intro v hv; simp [make_response, hv]
  · intro v hv; simp [make_response, hv]

/-- C11 at completions from node 5 with the integer 7, a real and a boolean. -/
theorem C11_published_value_witness :
    publications (cb_getset state_getset success_from_5 true true).2
        = [make_response state_getset success_from_5]
    ∧ (make_response state_getset success_from_5).node_id = 5
    ∧ (make_response state_getset success_from_5).param_type = some MAV_PARAM_TYPE_INT64
    ∧ (make_response state_getset success_from_5).int_value = some 7
    ∧ (make_response state_getset success_real_from_5).param_type = some MAV_PARAM_TYPE_REAL32
    ∧ (make_response state_getset success_real_from_5).real_value
        = some { bits := 1065353216 }
    ∧ (make_response state_getset success_bool_from_5).param_type = some MAV_PARAM_TYPE_UINT8
    ∧ (make_response state_getset success_bool_from_5).int_value = some 1 :=
  ⟨(C11_published_value state_getset success_from_5 true true rfl rfl).1,
    (C11_published_value state_getset success_from_5 true true rfl rfl).2.1,
    ((C11_published_value state_getset success_from_5 true true rfl rfl).2.2.2.2.1 7 rfl).1,
    ((C11_published_value state_getset success_from_5 true true rfl rfl).2.2.2.2.1 7 rfl).2,
    ((C11_published_value state_getset success_real_from_5 true true rfl rfl).2.2.2.2.2.1
      { bits := 1065353216 } rfl).1,
    ((C11_published_value state_getset success_real_from_5 true true rfl rfl).2.2.2.2.2.1
      { bits := 1065353216 } rfl).2,
    ((C11_published_value state_getset success_bool_from_5 true true rfl rfl).2.2.2.2.2.2
      1 rfl).1,
    ((C11_published_value state_getset success_bool_from_5 true true rfl rfl).2.2.2.2.2.2
      1 rfl).2⟩

/-- C15: the completion of a restart call (`cb_restart`) and of an opcode
call (`cb_opcode`), whether it timed out (`successful = false`), was rejected
(`ok = false`) or succeeded, clears the command-in-progress flag, changes no
other member variable and makes no call. -/
theorem C15_command_completion_clears_flag (s : State) (successful ok : Bool) :
    cb_restart s successful ok = ({ s with _cmd_in_progress := false }, [])
    ∧ cb_opcode s successful ok = ({ s with _cmd_in_progress := false }, [])
    ∧ (cb_restart s successful ok).1._cmd_in_progress = false
    ∧ (cb_opcode s successful ok).1._cmd_in_progress = false :=
  ⟨rfl, rfl, rfl, rfl⟩

/-- C17: while enumeration is not active, `cb_enumeration_indication` makes
no call, whatever node the indication comes from, and returns the member
variables unchanged. -/
theorem C17_indication_ignored_when_inactive (s : State) (src : Nat) (call_ok : Bool)
    (h : s._esc_enumeration_active = false) :
    cb_enumeration_indication s src call_ok = (s, []) := by
  simp [cb_enumeration_indication, h]

/-- C17 at the initial state and an indication from node 4. -/
theorem C17_indication_ignored_witness :
    (State.init 20 0)._esc_enumeration_active = false
    ∧ cb_enumeration_indication (State.init 20 0) 4 true = (State.init 20 0, []) :=
  ⟨rfl, C17_indication_ignored_when_inactive (State.init 20 0) 4 true rfl⟩

theorem find_range_some (p : Nat → Bool) (n : Nat) :
    ∀ (b i : Nat), (List.range' b n).find? p = some i →
      b ≤ i ∧ i < b + n ∧ p i = true ∧ ∀ j, b ≤ j → j < i → p j = false := by
  induction n with
  | zero => intro b i h; simp at h
  | succ n ih =>
    intro b i h
    rw [List.range'_succ, List.find?_cons] at h
    cases hb : p b with
    | true =>
      rw [hb] at h
      simp only [Option.some.injEq] at h
      subst h
      exact ⟨Nat.le_refl _, by omega, hb, fun j h1 h2 => by omega⟩
    | false =>
      rw [hb] at h
      obtain ⟨h1, h2, h3, h4⟩ := ih (b + 1) i h
      refine ⟨by omega, by omega, h3, ?_⟩
      intro j hj1 hj2
      rcases Nat.eq_or_lt_of_le hj1 with e | l
      · rw [← e]; exact hb
      · exact h4 j l hj2

theorem find_range_none (p : Nat → Bool) (n : Nat) :
    ∀ (b : Nat), (List.range' b n).find? p = none →
      ∀ j, b ≤ j → j < b + n → p j = false := by
  induction n with
  | zero => intro b _ j h1 h2; omega
  | succ n ih =>
    intro b h j hj1 hj2
    rw [List.range'_succ, List.find?_cons] at h
    cases hb : p b with
    | true => rw [hb] at h; simp at h
    | false =>
      rw [hb] at h
      rcases Nat.eq_or_lt_of_le hj1 with e | l
      · rw [← e]; exact hb
      · exact ih (b + 1) h j l (by omega)

/-- The lowest known node: when some address `i` in `base, ..., 127` is known
and is not the own address, `get_next_active_node_id base` is the least such
address. -/
theorem get_next_active_node_id_least (env : Env) (base i : Nat)
    (h1 : base ≤ i) (h2 : i < 128) (hk : env.isNodeKnown i = true) (ho : env.ownNodeID ≠ i) :
    base ≤ get_next_active_node_id env base
    ∧ get_next_active_node_id env base ≤ i
    ∧ env.isNodeKnown (get_next_active_node_id env base) = true
    ∧ env.ownNodeID ≠ get_next_active_node_id env base := by
  unfold get_next_active_node_id
  cases hf : (List.range' base (128 - base)).find?
      (fun i => env.isNodeKnown i && (env.ownNodeID != i)) with
  | none =>
    have := find_range_none _ _ base hf i h1 (by omega)
    simp [hk, ho] at this
  | some t =>
    obtain ⟨a1, a2, a3, a4⟩ := find_range_some _ _ base t hf
    simp only [Bool.and_eq_true, bne_iff_ne, ne_eq] at a3
    dsimp only
    refine ⟨a1, ?_, a3.1, a3.2⟩
    by_contra hlt
    have := a4 i h1 (by omega)
    simp [hk, ho] at this

/-- C13: a UAVCAN command taken by the command block (no command in
progress).  Id 0 clears the enumeration-active flag and sends Begin with
timeout 0, id 1 sets the flag and sends Begin with timeout 65535, both to
`get_next_active_node_id(1)`; id 2 sends a restart call with the magic
number, id 3 the opcode save and id 4 the opcode erase, to the node of the
command; ids 2, 3 and 4 set the command-in-progress flag exactly when the
call is accepted, ids 0 and 1 leave it clear; every other id makes no call
and changes nothing.  The node of the command is `node_id` itself for
`0 <= node_id < 256`, and `get_next_active_node_id(1)` is the lowest known
address that is not the own one, when there is one. -/
theorem C13_command_dispatch (env : Env) (s : State) (cmd : vehicle_command_s)
    (call_ok : Bool) (hf : s._cmd_in_progress = false)
    (hc : cmd.command = VEHICLE_CMD_PREFLIGHT_UAVCAN) :
    (cmd.command_id = 0 →
      run_command env s (some cmd) call_ok
        = ({ s with _esc_enumeration_active := false, _esc_enumeration_index := 0,
                    _esc_count := 0 },
            [Effect.begin_call (get_next_active_node_id env 1) 0 call_ok]))
    ∧ (cmd.command_id = 1 →
      run_command env s (some cmd) call_ok
        = ({ s with _esc_enumeration_active := true, _esc_enumeration_index := 0,
                    _esc_count := 0 },
            [Effect.begin_call (get_next_active_node_id env 1) 65535 call_ok]))
    ∧ (cmd.command_id = 2 →
      run_command env s (some cmd) call_ok
        = ({ s with _cmd_in_progress := call_ok },
            [Effect.restart_call (cmd.node_id % 256).toNat MAGIC_NUMBER call_ok]))
    ∧ (cmd.command_id = 3 →
      run_command env s (some cmd) call_ok
        = ({ s with _cmd_in_progress := call_ok },
            [Effect.opcode_call (cmd.node_id % 256).toNat OPCODE_SAVE call_ok]))
    ∧ (cmd.command_id = 4 →
      run_command env s (some cmd) call_ok
        = ({ s with _cmd_in_progress := call_ok },
            [Effect.opcode_call (cmd.node_id % 256).toNat OPCODE_ERASE call_ok]))
    ∧ ((cmd.command_id < 0 ∨ 4 < cmd.command_id) →
      run_command env s (some cmd) call_ok = (s, []))
    ∧ (0 ≤ cmd.node_id → cmd.node_id < 256 → ((cmd.node_id % 256).toNat : Int) = cmd.node_id)
    ∧ (∀ i, 1 ≤ i → i < 128 → env.isNodeKnown i = true → env.ownNodeID ≠ i →
        1 ≤ get_next_active_node_id env 1 ∧ get_next_active_node_id env 1 ≤ i
        ∧ env.isNodeKnown (get_next_active_node_id env 1) = true
        ∧ env.ownNodeID ≠ get_next_active_node_id env 1) := by
  refine ⟨?_, ?_, ?_, ?_, ?_, ?_, ?_, ?_⟩
  · intro h; simp [run_command, hf, hc, h, begin_timeout]
  · intro h; simp [run_command, hf, hc, h, begin_timeout]
  · intro h
    cases call_ok <;> simp [run_command, hf, hc, h]
    rw [← hf]
  · intro h
    cases call_ok <;> simp [run_command, hf, hc, h]
    rw [← hf]
  · intro h
    cases call_ok <;> simp [run_command, hf, hc, h]
    rw [← hf]
  · intro h
    have h0 : cmd.command_id ≠ 0 := by omega
    have h1 : cmd.command_id ≠ 1 := by omega
    have h2 : cmd.command_id ≠ 2 := by omega
    have h3 : cmd.command_id ≠ 3 := by omega
    have h4 : cmd.command_id ≠ 4 := by omega
    simp [run_command, hf, hc, h0, h1, h2, h3, h4]
  · intro h1 h2
    rw [Int.emod_eq_of_lt h1 h2]
    exact Int.toNat_of_nonneg h1
  · intro i h1 h2 h3 h4
    exact get_next_active_node_id_least env 1 i h1 h2 h3 h4

/-- C13 at the commands 1, 2 (node 10), 4 (node 10, rejected) and 7 on the
initial state, nodes 4 and 6 known. -/
theorem C13_command_dispatch_witness :
    run_command env_4_6 (State.init 20 0) (some (uavcan_command 1 0)) true
        = ({ State.init 20 0 with _esc_enumeration_active := true },
            [Effect.begin_call 4 65535 true])
    ∧ run_command env_4_6 (State.init 20 0) (some (uavcan_command 2 10)) true
        = ({ State.init 20 0 with _cmd_in_progress := true },
            [Effect.restart_call 10 MAGIC_NUMBER true])
    ∧ run_command env_4_6 (State.init 20 0) (some (uavcan_command 4 10)) false
        = (State.init 20 0, [Effect.opcode_call 10 OPCODE_ERASE false])
    ∧ run_command env_4_6 (State.init 20 0) (some (uavcan_command 7 10)) true
        = (State.init 20 0, []) :=
  ⟨(C13_command_dispatch env_4_6 (State.init 20 0) (uavcan_command 1 0) true rfl rfl).2.1 rfl,
    (C13_command_dispatch env_4_6 (State.init 20 0) (uavcan_command 2 10) true rfl rfl).2.2.1 rfl,
    (C13_command_dispatch env_4_6 (State.init 20 0) (uavcan_command 4 10) false rfl
      rfl).2.2.2.2.1 rfl,
    (C13_command_dispatch env_4_6 (State.init 20 0) (uavcan_command 7 10) true rfl
      rfl).2.2.2.2.2.1 (Or.inr (by decide))⟩

theorem command_calls_append (e1 e2 : List Effect) :
    command_calls (e1 ++ e2) = command_calls e1 ++ command_calls e2 := by
  induction e1 with
  | nil => rfl
  | cons e es ih => cases e <;> simp [command_calls, ih]

theorem run_param_request_frames (env : Env) (s : State)
    (req : Option uavcan_parameter_request_s) (ok : Bool) :
    CmdFrame s (run_param_request env s req ok)
    ∧ TableFrame s (run_param_request env s req ok) := by
  unfold run_param_request CmdFrame TableFrame
  cases req with
  | none => simp [command_calls]
  | some request =>
    cases ok <;> simp only [param_count, send_getset] <;> (repeat' split) <;>
      simp [command_calls]

theorem run_list_advance_frames (env : Env) (s : State) (ok : Bool) :
    CmdFrame s (run_list_advance env s ok) ∧ TableFrame s (run_list_advance env s ok) := by
  unfold run_list_advance CmdFrame TableFrame
  cases ok <;> simp only [param_count] <;> (repeat' split) <;> simp [command_calls]

theorem run_list_next_frames (s : State) (ok : Bool) :
    CmdFrame s (run_list_next s ok) ∧ TableFrame s (run_list_next s ok) := by
  unfold run_list_next CmdFrame TableFrame
  cases ok <;> simp only <;> (repeat' split) <;> simp [command_calls]

theorem cb_getset_frames (s : State) (result : GetSetResult) (call_ok adv_ok : Bool) :
    CmdFrame s (cb_getset s result call_ok adv_ok)
    ∧ TableFrame s (cb_getset s result call_ok adv_ok) := by
  unfold cb_getset CmdFrame TableFrame
  cases call_ok <;> simp only <;> (repeat' split) <;> simp [command_calls]

theorem cb_enumeration_begin_frames (env : Env) (s : State) (n : Nat) (b : Bool) (e : Nat)
    (ok : Bool) :
    CmdFrame s (cb_enumeration_begin env s n b e ok)
    ∧ TableFrame s (cb_enumeration_begin env s n b e ok) := by
  unfold cb_enumeration_begin CmdFrame TableFrame
  cases ok <;> simp only <;> (repeat' split) <;> simp [command_calls]

theorem cb_enumeration_indication_frames (s : State) (n : Nat) (ok : Bool) :
    CmdFrame s (cb_enumeration_indication s n ok)
    ∧ TableFrame s (cb_enumeration_indication s n ok) := by
  unfold cb_enumeration_indication CmdFrame TableFrame
  cases ok <;> simp only <;> (repeat' split) <;> simp [command_calls]

theorem cb_enumeration_save_frames (env : Env) (s : State) (a b ok : Bool) :
    CmdFrame s (cb_enumeration_save env s a b ok)
    ∧ TableFrame s (cb_enumeration_save env s a b ok) := by
  unfold cb_enumeration_save CmdFrame TableFrame
  cases ok <;> simp only <;> (repeat' split) <;> simp [command_calls]

theorem cb_enumeration_getset_cmd (env : Env) (s : State) (r : GetSetResult) (ok : Bool) :
    CmdFrame s (cb_enumeration_getset env s r ok) := by
  unfold cb_enumeration_getset CmdFrame
  cases ok <;> simp only <;> (repeat' split) <;> simp [command_calls]

theorem run_command_busy (env : Env) (s : State) (cmd : Option vehicle_command_s) (ok : Bool)
    (h : s._cmd_in_progress = true) : run_command env s cmd ok = (s, []) := by
  cases cmd <;> simp [run_command, h]

theorem run_iteration_cmd_busy (env : Env) (s : State) (inp : TickInput)
    (h : s._cmd_in_progress = true) : CmdFrame s (run_iteration env s inp) := by
  obtain ⟨⟨a1, a2⟩, _⟩ := run_param_request_frames env s inp.param_request inp.request_ok
  obtain ⟨⟨b1, b2⟩, _⟩ := run_list_advance_frames env
    (run_param_request env s inp.param_request inp.request_ok).1 inp.advance_ok
  obtain ⟨⟨c1, c2⟩, _⟩ := run_list_next_frames
    (run_list_advance env
      (run_param_request env s inp.param_request inp.request_ok).1 inp.advance_ok).1 inp.list_ok
  have hflag : (run_list_next
    (run_list_advance env
      (run_param_request env s inp.param_request inp.request_ok).1 inp.advance_ok).1
      inp.list_ok).1._cmd_in_progress = true := by rw [c1, b1, a1, h]
  have hcmd := run_command_busy env _ inp.cmd inp.cmd_ok hflag
  unfold CmdFrame run_iteration
  simp only [hcmd, command_calls_append, a2, b2, c2]
  exact ⟨by rw [hflag, h], by simp [command_calls]⟩

theorem after_inv {P : Pending} {r : State × List Effect} {sys1 : System}
    {eff : List Effect} (hs : System.after P r = (sys1, eff)) :
    sys1.st = r.1 ∧ eff = r.2 := by
  simp only [System.after, Prod.mk.injEq] at hs
  obtain ⟨rfl, rfl⟩ := hs
  exact ⟨rfl, rfl⟩

theorem CmdFrame.busy {s : State} {P : Pending} {r : State × List Effect} {sys1 : System}
    {eff : List Effect} (hs : System.after P r = (sys1, eff)) (hf : CmdFrame s r)
    (h : s._cmd_in_progress = true) :
    sys1.st._cmd_in_progress = true ∧ command_calls eff = [] := by
  obtain ⟨e1, e2⟩ := after_inv hs
  rw [e1, e2, hf.1, hf.2]
  exact ⟨h, rfl⟩

/-- C14: while the command-in-progress flag is set the command block does
not take a pending command, whatever its id: it makes no call and returns the
member variables unchanged.  The flag stays set, and no restart or opcode
call is made, through every event that is not the completion of a restart or
opcode call: a command is dispatched only after such a completion has
cleared the flag. -/
theorem C14_command_refused_while_in_progress (env : Env) (sys : System)
    (cmd : vehicle_command_s) (call_ok : Bool) (ev : Event) (sys1 : System)
    (eff : List Effect) (hflag : sys.st._cmd_in_progress = true) :
    run_command env sys.st (some cmd) call_ok = (sys.st, [])
    ∧ (ev.is_command_completion = false → step env sys ev = some (sys1, eff) →
        sys1.st._cmd_in_progress = true ∧ command_calls eff = []) := by
  refine ⟨run_command_busy env sys.st (some cmd) call_ok hflag, ?_⟩
  intro hev hs
  cases ev with
  | iteration inp =>
    simp only [step, Option.some.injEq] at hs
    exact CmdFrame.busy hs (run_iteration_cmd_busy env sys.st inp hflag) hflag
  | getset_done k successful response call_ok adv_ok =>
    simp only [step] at hs
    split at hs
    · simp at hs
    · simp only [Option.some.injEq] at hs
      exact CmdFrame.busy hs (cb_getset_frames _ _ _ _).1 hflag
  | begin_done k successful error call_ok =>
    simp only [step] at hs
    split at hs
    · simp at hs
    · simp only [Option.some.injEq] at hs
      exact CmdFrame.busy hs (cb_enumeration_begin_frames env _ _ _ _ _).1 hflag
  | indication src call_ok =>
    simp only [step, Option.some.injEq] at hs
    exact CmdFrame.busy hs (cb_enumeration_indication_frames _ _ _).1 hflag
  | enum_getset_done k successful response call_ok =>
    simp only [step] at hs
    split at hs
    · simp at hs
    · simp only [Option.some.injEq] at hs
      exact CmdFrame.busy hs (cb_enumeration_getset_cmd env _ _ _) hflag
  | enum_save_done k successful ok call_ok =>
    simp only [step] at hs
    split at hs
    · simp at hs
    · simp only [Option.some.injEq] at hs
      exact CmdFrame.busy hs (cb_enumeration_save_frames env _ _ _ _).1 hflag
  | restart_done k successful ok => simp [Event.is_command_completion] at hev
  | opcode_done k successful ok => simp [Event.is_command_completion] at hev

/-- C14 at a state with a restart in progress and the commands 2 and 1. -/
theorem C14_command_refused_witness :
    run_command env_4_6 sys_cmd_in_progress.st (some (uavcan_command 2 10)) true
        = (sys_cmd_in_progress.st, [])
    ∧ run_command env_4_6 sys_cmd_in_progress.st (some (uavcan_command 1 0)) true
        = (sys_cmd_in_progress.st, [])
    ∧ step env_4_6 sys_cmd_in_progress (Event.iteration (with_command 2 10))
        = some (sys_cmd_in_progress, [])
    ∧ sys_cmd_in_progress.st._cmd_in_progress = true
    ∧ command_calls ([] : List Effect) = [] :=
  ⟨(C14_command_refused_while_in_progress env_4_6 sys_cmd_in_progress (uavcan_command 2 10)
      true (Event.iteration (with_command 2 10)) sys_cmd_in_progress [] rfl).1,
    (C14_command_refused_while_in_progress env_4_6 sys_cmd_in_progress (uavcan_command 1 0)
      true (Event.iteration (with_command 2 10)) sys_cmd_in_progress [] rfl).1,
    by decide,
    ((C14_command_refused_while_in_progress env_4_6 sys_cmd_in_progress (uavcan_command 2 10)
      true (Event.iteration (with_command 2 10)) sys_cmd_in_progress [] rfl).2 rfl
      (by decide)).1,
    ((C14_command_refused_while_in_progress env_4_6 sys_cmd_in_progress (uavcan_command 2 10)
      true (Event.iteration (with_command 2 10)) sys_cmd_in_progress [] rfl).2 rfl
      (by decide)).2⟩

/-- C16 (the claim as stated fails): after node 4 has claimed index 0, a
second start command leaves `_esc_enumeration_ids[0] = 4`; only the
highest-claimed index and the acceptance counter are reset. -/
theorem C16_table_not_cleared_by_command :
    (exec env_4_6 (System.init 20 0)
        [Event.iteration (with_command 1 0), Event.indication 4 true, claim_reply 0,
          Event.iteration (with_command 1 0)]).map
        (fun r => (r.1.st._esc_enumeration_ids.getD 0 0, r.1.st._esc_enumeration_index,
          r.1.st._esc_count, r.1.st._esc_enumeration_active))
      = some (4, 0, 0, true) := by
  decide

/-- C16 (amended): dispatching an enumeration command (id 0 or 1) sets the
highest-claimed index and the node-acceptance counter to 0 and leaves the
claimed-index table as it is. -/
theorem C16_command_resets_index_and_counter (env : Env) (s : State)
    (cmd : vehicle_command_s) (call_ok : Bool) (hf : s._cmd_in_progress = false)
    (hc : cmd.command = VEHICLE_CMD_PREFLIGHT_UAVCAN)
    (hid : cmd.command_id = 0 ∨ cmd.command_id = 1) :
    (run_command env s (some cmd) call_ok).1._esc_enumeration_index = 0
    ∧ (run_command env s (some cmd) call_ok).1._esc_count = 0
    ∧ (run_command env s (some cmd) call_ok).1._esc_enumeration_ids = s._esc_enumeration_ids := by
  rcases hid with h | h <;> simp [run_command, hf, hc, h]

/-- C16 (amended) at the start command on an initial state whose acceptance
counter holds 7. -/
theorem C16_command_resets_witness :
    (run_command env_4_6 (State.init 20 7) (some (uavcan_command 1 0)) true).1._esc_enumeration_index
        = 0
    ∧ (run_command env_4_6 (State.init 20 7) (some (uavcan_command 1 0)) true).1._esc_count = 0
    ∧ (run_command env_4_6 (State.init 20 7) (some (uavcan_command 1 0)) true).1._esc_enumeration_ids
        = (State.init 20 7)._esc_enumeration_ids :=
  C16_command_resets_index_and_counter env_4_6 (State.init 20 7) (uavcan_command 1 0) true
    rfl rfl (Or.inr rfl)

/-- C12 (the claim as stated fails): a write to node 2 (cached count 3)
with type tag uint8 and integer value 256 sends the boolean value 0, not the
request's integer value: the remote boolean is an unsigned 8-bit field. -/
theorem C12_boolean_write_reduced_to_8_bits :
    write_bool_256.param_type = MAV_PARAM_TYPE_UINT8
    ∧ write_bool_256.int_value = 256
    ∧ (sys_count_2_is_3.st._param_counts.getD write_bool_256.node_id 0 = 3)
    ∧ (run_param_request env_2_9 sys_count_2_is_3.st (some write_bool_256) true).2
      = [Effect.getset_call 2 { index := 0, value := Value.boolean_value 0 } true] := by
  decide

/-- C12 (amended): a read or a write request for a node with a non-zero
cached count, taken when no parameter flow is in progress, makes one call,
to the request's node.  Its request selects by index (no name) when the
request's index is `>= 0` and by name (the C string in `param_id`, index 0)
otherwise; a read carries no value; a write carries the float value tagged
real when the type tag is real32, the integer value reduced modulo 256
tagged boolean when the type tag is uint8, and the integer value tagged
integer for every other type tag.  The get/set flag is set exactly when the
call is accepted; the counting and listing flags stay clear. -/
theorem C12_read_write_dispatch (env : Env) (s : State)
    (request : uavcan_parameter_request_s) (call_ok : Bool) (hi : FlowsIdle s)
    (hc : s._param_counts.getD request.node_id 0 ≠ 0)
    (hm : request.message_type = MAVLINK_MSG_ID_PARAM_REQUEST_READ
      ∨ request.message_type = MAVLINK_MSG_ID_PARAM_SET) :
    ∃ req : GetSetRequest,
      (run_param_request env s (some request) call_ok).2
        = [Effect.getset_call request.node_id req call_ok]
      ∧ (0 ≤ request.param_index →
          req.index = request.param_index.toNat ∧ req.name = [])
      ∧ (request.param_index < 0 →
          req.name = c_str request.param_id ∧ req.index = 0)
      ∧ (request.message_type = MAVLINK_MSG_ID_PARAM_REQUEST_READ → req.value = Value.empty)
      ∧ (request.message_type = MAVLINK_MSG_ID_PARAM_SET →
          (request.param_type = MAV_PARAM_TYPE_REAL32 →
            req.value = Value.real_value request.real_value)
          ∧ (request.param_type = MAV_PARAM_TYPE_UINT8 →
            req.value = Value.boolean_value (request.int_value % 256).toNat)
          ∧ (request.param_type ≠ MAV_PARAM_TYPE_REAL32 →
              request.param_type ≠ MAV_PARAM_TYPE_UINT8 →
            req.value = Value.integer_value request.int_value))
      ∧ (run_param_request env s (some request) call_ok).1._param_in_progress = call_ok
      ∧ (run_param_request env s (some request) call_ok).1._count_in_progress = false
      ∧ (run_param_request env s (some request) call_ok).1._param_list_in_progress = false := by
  obtain ⟨h1, h2, h3⟩ := hi
  simp only [List.getD_eq_getElem?_getD] at hc
  rcases hm with hm | hm
  · refine ⟨select_param request, ?_, ?_, ?_, ?_, ?_, ?_, ?_, ?_⟩
    · cases call_ok <;> simp [run_param_request, h1, h2, h3, hc, hm, send_getset]
    · intro h; simp [select_param, h]
    · intro h
      have : ¬ (0 ≤ request.param_index) := by omega
      simp [select_param, this]
    · intro _
      unfold select_param; split <;> rfl
    · intro h; rw [hm] at h; simp [MAVLINK_MSG_ID_PARAM_REQUEST_READ, MAVLINK_MSG_ID_PARAM_SET] at h
    · cases call_ok <;> simp [run_param_request, h1, h2, h3, hc, hm, send_getset]
    · cases call_ok <;> simp [run_param_request, h1, h2, h3, hc, hm, send_getset]
    · cases call_ok <;> simp [run_param_request, h1, h2, h3, hc, hm, send_getset]
  · have hne : ¬ (MAVLINK_MSG_ID_PARAM_SET = MAVLINK_MSG_ID_PARAM_REQUEST_READ) := by decide
    refine ⟨{ select_param request with value := set_value request }, ?_, ?_, ?_, ?_, ?_, ?_, ?_, ?_⟩
    · cases call_ok <;> simp [run_param_request, h1, h2, h3, hc, hm, hne, send_getset]
    · intro h; simp [select_param, h]
    · intro h
      have : ¬ (0 ≤ request.param_index) := by omega
      simp [select_param, this]
    · intro h; rw [hm] at h; exact absurd h hne
    · intro _
      refine ⟨?_, ?_, ?_⟩
      · intro h; simp [set_value, h]
      · intro h
        have : ¬ (MAV_PARAM_TYPE_UINT8 = MAV_PARAM_TYPE_REAL32) := by decide
        simp [set_value, h, this]
      · intro ha hb; simp [set_value, ha, hb]
    · cases call_ok <;> simp [run_param_request, h1, h2, h3, hc, hm, hne, send_getset]
    · cases call_ok <;> simp [run_param_request, h1, h2, h3, hc, hm, hne, send_getset]
    · cases call_ok <;> simp [run_param_request, h1, h2, h3, hc, hm, hne, send_getset]

/-- C12 (amended) at a write by name with a real value to node 2. -/
theorem C12_read_write_dispatch_witness :
    (run_param_request env_2_9 sys_count_2_is_3.st (some write_real_by_name) true).2
        = [Effect.getset_call 2
            { index := 0, name := [97, 98], value := Value.real_value { bits := 1065353216 } }
            true]
    ∧ (run_param_request env_2_9 sys_count_2_is_3.st
        (some write_real_by_name) true).1._param_in_progress = true := by
  obtain ⟨req, h1, _, h3, _, h5, h6, _, _⟩ :=
    C12_read_write_dispatch env_2_9 sys_count_2_is_3.st write_real_by_name true
      ⟨rfl, rfl, rfl⟩ (by decide) (Or.inr rfl)
  obtain ⟨hn, hx⟩ := h3 (by decide)
  have hv := (h5 rfl).1 rfl
  obtain ⟨i, n, v⟩ := req
  simp only at hn hx hv
  subst hn hx hv
  exact ⟨h1, h6⟩

theorem scan_ids_first (ids : List Nat) (index A k : Nat) (hrec : ids.getD k 0 = A)
    (hk : k ≤ index) (hfirst : ∀ j, j < k → ids.getD j 0 ≠ A) :
    scan_ids ids index A = k := by
  unfold scan_ids
  rw [List.range_eq_range']
  cases hf : (List.range' 0 index).find? (fun i => ids.getD i 0 == A) with
  | none =>
    dsimp only
    rcases Nat.eq_or_lt_of_le hk with e | l
    · exact e.symm
    · have := find_range_none _ _ 0 hf k (Nat.zero_le _) (by omega)
      simp only [beq_eq_false_iff_ne, ne_eq] at this
      exact absurd hrec this
  | some t =>
    dsimp only
    obtain ⟨_, a2, a3, a4⟩ := find_range_some _ _ 0 t hf
    simp only [beq_iff_eq] at a3
    rcases Nat.lt_trichotomy t k with h | h | h
    · exact absurd a3 (hfirst t h)
    · exact h
    · have := a4 k (Nat.zero_le _) h
      simp only [beq_eq_false_iff_ne, ne_eq] at this
      exact absurd hrec this

/-- C18 (amended): with enumeration active, when node `A` is recorded at
index `k` of the claimed-index table, `k` is at most the highest-claimed
index and no slot below `k` records `A`, an indication from `A` makes the
claim call to `A` with candidate value `k` and changes no member variable
(neither the table nor the highest-claimed index). -/
theorem C18_recorded_index_reused (s : State) (A k : Nat) (call_ok : Bool)
    (ha : s._esc_enumeration_active = true)
    (hrec : s._esc_enumeration_ids.getD k 0 = A)
    (hk : k ≤ s._esc_enumeration_index)
    (hfirst : ∀ j, j < k → s._esc_enumeration_ids.getD j 0 ≠ A) :
    cb_enumeration_indication s A call_ok
      = (s, [Effect.enum_getset_call A
          { name := esc_index_name, value := Value.integer_value (k : Int) } call_ok]) := by
  simp [cb_enumeration_indication, ha, scan_ids_first _ _ A k hrec hk hfirst]

/-- C18 (amended) at a table that records node 4 at index 0 and node 6 at
index 1. -/
theorem C18_recorded_index_reused_witness :
    cb_enumeration_indication state_claimed_4_6 6 true
        = (state_claimed_4_6, [Effect.enum_getset_call 6
            { name := esc_index_name, value := Value.integer_value 1 } true])
    ∧ cb_enumeration_indication state_claimed_4_6 4 true
        = (state_claimed_4_6, [Effect.enum_getset_call 4
            { name := esc_index_name, value := Value.integer_value 0 } true]) :=
  ⟨C18_recorded_index_reused state_claimed_4_6 6 1 true rfl rfl (by decide) (by decide),
    C18_recorded_index_reused state_claimed_4_6 4 0 true rfl rfl (by decide) (by decide)⟩

/-- C18 (the claim as stated fails): with enumeration active, node 4
recorded at index 1 (and at index 0) is offered 0; and after a second start
command node 6, still recorded at index 1 above the reset highest-claimed
index 0, is offered 0. -/
theorem C18_recorded_index_not_reused :
    (exec env_4_6 (System.init 20 0)
        [Event.iteration (with_command 1 0), Event.indication 4 true, claim_reply 0,
          Event.indication 4 true, claim_reply 1, Event.indication 4 true]).map
        (fun r => (r.1.st._esc_enumeration_active, r.1.st._esc_enumeration_ids.getD 1 0,
          r.1.st._esc_enumeration_index, r.2.getLast?))
      = some (true, 4, 1, some (Effect.enum_getset_call 4
          { name := esc_index_name, value := Value.integer_value 0 } true))
    ∧ (exec env_4_6 (System.init 20 0)
        [Event.iteration (with_command 1 0), Event.indication 6 true, claim_reply 1,
          Event.iteration (with_command 1 0), Event.indication 6 true]).map
        (fun r => (r.1.st._esc_enumeration_active, r.1.st._esc_enumeration_ids.getD 1 0,
          r.1.st._esc_enumeration_index, r.2.getLast?))
      = some (true, 6, 0, some (Effect.enum_getset_call 6
          { name := esc_index_name, value := Value.integer_value 0 } true)) := by
  constructor <;> decide

theorem cb_enumeration_getset_success (env : Env) (MaxSize : Nat) (hm : env.MaxSize = MaxSize)
    (h1 : 1 ≤ MaxSize) (h2 : MaxSize ≤ 256) (s : State) (result : GetSetResult) (ok : Bool)
    (hs : result.successful = true) :
    cb_enumeration_getset env s result ok
      = ({ s with
            _esc_enumeration_index :=
              max s._esc_enumeration_index (claimed_slot MaxSize result.response.value)
            _esc_enumeration_ids :=
              s._esc_enumeration_ids.set (claimed_slot MaxSize result.response.value)
                result.server_node_id },
          [Effect.enum_save_call result.server_node_id OPCODE_SAVE ok]) := by
  have hcap : (((env.MaxSize : Int) - 1) % 256).toNat = MaxSize - 1 := by
    rw [hm]
    have e : ((MaxSize : Int) - 1) = ((MaxSize - 1 : Nat) : Int) := by omega
    rw [e, Int.emod_eq_of_lt (by omega) (by omega)]
    simp
  simp [cb_enumeration_getset, hs, hcap, claimed_slot]

theorem claimed_slot_le (MaxSize : Nat) (v : Value) : claimed_slot MaxSize v ≤ MaxSize - 1 :=
  Nat.min_le_left _ _

theorem scan_ids_le (ids : List Nat) (index src : Nat) : scan_ids ids index src ≤ index := by
  unfold scan_ids
  rw [List.range_eq_range']
  cases hf : (List.range' 0 index).find? (fun i => ids.getD i 0 == src) with
  | none => exact Nat.le_refl _
  | some t =>
    dsimp only
    have := (find_range_some _ _ 0 t hf).2.1
    omega

theorem run_command_table (env : Env) (s : State) (cmd : Option vehicle_command_s) (ok : Bool) :
    (run_command env s cmd ok).1._esc_enumeration_ids = s._esc_enumeration_ids
    ∧ ((run_command env s cmd ok).1._esc_enumeration_index = s._esc_enumeration_index
      ∨ (run_command env s cmd ok).1._esc_enumeration_index = 0) := by
  unfold run_command
  cases cmd with
  | none => simp
  | some c => cases ok <;> simp only <;> (repeat' split) <;> simp

theorem run_iteration_table (env : Env) (s : State) (inp : TickInput) :
    (run_iteration env s inp).1._esc_enumeration_ids = s._esc_enumeration_ids
    ∧ ((run_iteration env s inp).1._esc_enumeration_index = s._esc_enumeration_index
      ∨ (run_iteration env s inp).1._esc_enumeration_index = 0) := by
  obtain ⟨_, a1, a2⟩ := run_param_request_frames env s inp.param_request inp.request_ok
  obtain ⟨_, b1, b2⟩ := run_list_advance_frames env
    (run_param_request env s inp.param_request inp.request_ok).1 inp.advance_ok
  obtain ⟨_, c1, c2⟩ := run_list_next_frames
    (run_list_advance env
      (run_param_request env s inp.param_request inp.request_ok).1 inp.advance_ok).1 inp.list_ok
  obtain ⟨d1, d2⟩ := run_command_table env (run_list_next
    (run_list_advance env
      (run_param_request env s inp.param_request inp.request_ok).1 inp.advance_ok).1
      inp.list_ok).1 inp.cmd inp.cmd_ok
  unfold run_iteration
  simp only
  rw [c1, b1, a1] at d1
  rw [c2, b2, a2] at d2
  exact ⟨d1, d2⟩

/-- What one event does to the claimed-index table: a successful claim
completion writes the slot of the returned value, every other event leaves
the table as it is and leaves the highest-claimed index or resets it to 0. -/
theorem step_table (env : Env) (MaxSize : Nat) (hm : env.MaxSize = MaxSize)
    (h1 : 1 ≤ MaxSize) (h2 : MaxSize ≤ 256) (sys sys1 : System) (ev : Event)
    (eff : List Effect) (hs : step env sys ev = some (sys1, eff)) :
    (∃ k resp ok B, ev = Event.enum_getset_done k true resp ok
        ∧ sys.pending.enum_getset.get? k = some B
        ∧ sys1.st._esc_enumeration_ids
          = sys.st._esc_enumeration_ids.set (claimed_slot MaxSize resp.value) B
        ∧ sys1.st._esc_enumeration_index
          = max sys.st._esc_enumeration_index (claimed_slot MaxSize resp.value))
    ∨ ((∀ k resp ok, ev ≠ Event.enum_getset_done k true resp ok)
        ∧ sys1.st._esc_enumeration_ids = sys.st._esc_enumeration_ids
        ∧ (sys1.st._esc_enumeration_index = sys.st._esc_enumeration_index
          ∨ sys1.st._esc_enumeration_index = 0)) := by
  cases ev with
  | iteration inp =>
    simp only [step, Option.some.injEq] at hs
    obtain ⟨e1, _⟩ := after_inv hs
    obtain ⟨t1, t2⟩ := run_iteration_table env sys.st inp
    exact Or.inr ⟨by simp, by rw [e1]; exact t1, by rw [e1]; exact t2⟩
  | getset_done k successful response call_ok adv_ok =>
    simp only [step] at hs
    split at hs
    · simp at hs
    · simp only [Option.some.injEq] at hs
      obtain ⟨e1, _⟩ := after_inv hs
      obtain ⟨_, t1, t2⟩ := cb_getset_frames sys.st
        { server_node_id := _, successful := successful, response := response } call_ok adv_ok
      exact Or.inr ⟨by simp, by rw [e1]; exact t1, by rw [e1]; exact Or.inl t2⟩
  | begin_done k successful error call_ok =>
    simp only [step] at hs
    split at hs
    · simp at hs
    · rename_i node _
      simp only [Option.some.injEq] at hs
      obtain ⟨e1, _⟩ := after_inv hs
      obtain ⟨_, t1, t2⟩ := cb_enumeration_begin_frames env sys.st node successful error call_ok
      exact Or.inr ⟨by simp, by rw [e1]; exact t1, by rw [e1]; exact Or.inl t2⟩
  | indication src call_ok =>
    simp only [step, Option.some.injEq] at hs
    obtain ⟨e1, _⟩ := after_inv hs
    obtain ⟨_, t1, t2⟩ := cb_enumeration_indication_frames sys.st src call_ok
    exact Or.inr ⟨by simp, by rw [e1]; exact t1, by rw [e1]; exact Or.inl t2⟩
  | enum_getset_done k successful response call_ok =>
    simp only [step] at hs
    split at hs
    · simp at hs
    · rename_i node hk
      simp only [Option.some.injEq] at hs
      obtain ⟨e1, _⟩ := after_inv hs
      cases successful with
      | true =>
        refine Or.inl ⟨k, response, call_ok, node, rfl, hk, ?_, ?_⟩
        · rw [e1, cb_enumeration_getset_success env MaxSize hm h1 h2 _ _ _ rfl]
        · rw [e1, cb_enumeration_getset_success env MaxSize hm h1 h2 _ _ _ rfl]
      | false =>
        refine Or.inr ⟨by simp, ?_, ?_⟩
        · rw [e1]; simp [cb_enumeration_getset]
        · rw [e1]; simp [cb_enumeration_getset]
  | enum_save_done k successful ok call_ok =>
    simp only [step] at hs
    split at hs
    · simp at hs
    · simp only [Option.some.injEq] at hs
      obtain ⟨e1, _⟩ := after_inv hs
      obtain ⟨_, t1, t2⟩ := cb_enumeration_save_frames env sys.st successful ok call_ok
      exact Or.inr ⟨by simp, by rw [e1]; exact t1, by rw [e1]; exact Or.inl t2⟩
  | restart_done k successful ok =>
    simp only [step] at hs
    split at hs
    · simp at hs
    · simp only [Option.some.injEq] at hs
      obtain ⟨e1, _⟩ := after_inv hs
      exact Or.inr ⟨by simp, by rw [e1]; rfl, by rw [e1]; exact Or.inl rfl⟩
  | opcode_done k successful ok =>
    simp only [step] at hs
    split at hs
    · simp at hs
    · simp only [Option.some.injEq] at hs
      obtain ⟨e1, _⟩ := after_inv hs
      exact Or.inr ⟨by simp, by rw [e1]; rfl, by rw [e1]; exact Or.inl rfl⟩

theorem reachable_table_inv (MaxSize : Nat) (h1 : 1 ≤ MaxSize) (h2 : MaxSize ≤ 256)
    (sys : System) (hr : Reachable MaxSize sys) : TableInv MaxSize sys.st := by
  induction hr with
  | init esc_count h => exact ⟨Nat.zero_le _, by simp [System.init, State.init]⟩
  | step env sys ev sys1 eff _ hm hs ih =>
    obtain ⟨i1, i2⟩ := ih
    rcases step_table env MaxSize hm h1 h2 sys sys1 ev eff hs with
      ⟨k, resp, ok, B, _, _, t1, t2⟩ | ⟨_, t1, t2⟩
    · refine ⟨?_, ?_⟩
      · rw [t2]
        exact Nat.max_le.mpr ⟨i1, claimed_slot_le _ _⟩
      · rw [t1, List.length_set]; exact i2
    · refine ⟨?_, by rw [t1]; exact i2⟩
      rcases t2 with t2 | t2
      · rw [t2]; exact i1
      · rw [t2]; exact Nat.zero_le _

/-- C19: for a table of `MaxSize` slots (`1 <= MaxSize <= 256`), a
successful claim completion writes the slot `claimed_slot` (the returned
value reduced to 8 bits, then capped at `MaxSize - 1`), which is at most
`MaxSize - 1` whatever integer the node returns; in every reachable system
the highest-claimed index is at most `MaxSize - 1` and the table has
`MaxSize` slots, so the slot written by `cb_enumeration_getset` and the
positions read by `cb_enumeration_indication` (up to the scan result) are
inside the table. -/
theorem C19_claimed_slot_in_bounds (MaxSize : Nat) (env : Env) (s : State)
    (result : GetSetResult) (call_ok : Bool) (sys : System) (src : Nat)
    (h1 : 1 ≤ MaxSize) (h2 : MaxSize ≤ 256) (hm : env.MaxSize = MaxSize)
    (hs : result.successful = true) (hr : Reachable MaxSize sys) :
    (cb_enumeration_getset env s result call_ok).1._esc_enumeration_ids
        = s._esc_enumeration_ids.set (claimed_slot MaxSize result.response.value)
            result.server_node_id
    ∧ claimed_slot MaxSize result.response.value ≤ MaxSize - 1
    ∧ sys.st._esc_enumeration_index ≤ MaxSize - 1
    ∧ sys.st._esc_enumeration_ids.length = MaxSize
    ∧ claimed_slot MaxSize result.response.value < sys.st._esc_enumeration_ids.length
    ∧ scan_ids sys.st._esc_enumeration_ids sys.st._esc_enumeration_index src
        < sys.st._esc_enumeration_ids.length := by
  obtain ⟨i1, i2⟩ := reachable_table_inv MaxSize h1 h2 sys hr
  have hslot := claimed_slot_le MaxSize result.response.value
  have hscan := scan_ids_le sys.st._esc_enumeration_ids sys.st._esc_enumeration_index src
  refine ⟨?_, hslot, i1, i2, by omega, by omega⟩
  rw [cb_enumeration_getset_success env MaxSize hm h1 h2 s result call_ok hs]

/-- C19 at a node that returns -1 (slot 19 of 20) and at the reachable system
in which node 4 has claimed index 0. -/
theorem C19_claimed_slot_in_bounds_witness :
    claimed_slot 20 claim_minus_one_from_4.response.value = 19
    ∧ (cb_enumeration_getset env_4_6 (State.init 20 0) claim_minus_one_from_4
        true).1._esc_enumeration_ids
      = (State.init 20 0)._esc_enumeration_ids.set
          (claimed_slot 20 claim_minus_one_from_4.response.value) 4
    ∧ sys_claimed_4.st._esc_enumeration_index ≤ 20 - 1
    ∧ sys_claimed_4.st._esc_enumeration_ids.length = 20 := by
  have hreach : Reachable 20 sys_claimed_4 :=
    Reachable.step env_4_6 sys_claim_pending_4 (claim_reply 0) sys_claimed_4
      [Effect.enum_save_call 4 OPCODE_SAVE true]
      (Reachable.step env_4_6 _ (Event.indication 4 true) sys_claim_pending_4
        [Effect.enum_getset_call 4
          { name := esc_index_name, value := Value.integer_value 0 } true]
        (Reachable.step env_4_6 (System.init 20 0) (Event.iteration (with_command 1 0))
          { st := { State.init 20 0 with _esc_enumeration_active := true }
            pending := { Pending.empty with enum_begin := [4] } }
          [Effect.begin_call 4 65535 true]
          (Reachable.init 0 (by decide)) rfl (by decide))
        rfl (by decide))
      rfl (by decide)
  have h := C19_claimed_slot_in_bounds 20 env_4_6 (State.init 20 0) claim_minus_one_from_4
    true sys_claimed_4 4 (by decide) (by decide) rfl rfl hreach
  exact ⟨by decide, h.1, h.2.2.1, h.2.2.2.1⟩

/-- C20 (the claim as stated fails): from the initial state, node 4 claims
index 0 and node 6, offered 0 and returning 0, overwrites slot 0; node 4
returning 0 and then 1 is recorded in two slots; and node 6, offered 1 and
returning 0, overwrites the slot recorded for node 4. -/
theorem C20_table_entries_not_distinct :
    (exec env_4_6 (System.init 20 0)
        [Event.iteration (with_command 1 0), Event.indication 4 true, claim_reply 0,
          Event.indication 6 true, claim_reply 0]).map
        (fun r => (r.2, r.1.st._esc_enumeration_ids.take 2))
      = some ([Effect.begin_call 4 65535 true,
            Effect.enum_getset_call 4
              { name := esc_index_name, value := Value.integer_value 0 } true,
            Effect.enum_save_call 4 OPCODE_SAVE true,
            Effect.enum_getset_call 6
              { name := esc_index_name, value := Value.integer_value 0 } true,
            Effect.enum_save_call 6 OPCODE_SAVE true],
          [6, 0])
    ∧ (exec env_4_6 (System.init 20 0)
        [Event.iteration (with_command 1 0), Event.indication 4 true, claim_reply 0,
          Event.indication 4 true, claim_reply 1]).map
        (fun r => r.1.st._esc_enumeration_ids.take 2)
      = some [4, 4]
    ∧ (exec env_4_6 (System.init 20 0)
        [Event.iteration (with_command 1 0), Event.indication 4 true, claim_reply 0,
          Event.indication 4 true, claim_reply 1,
          Event.indication 6 true, claim_reply 0]).map
        (fun r => (r.2.drop 5, r.1.st._esc_enumeration_ids.take 2))
      = some ([Effect.enum_getset_call 6
              { name := esc_index_name, value := Value.integer_value 1 } true,
            Effect.enum_save_call 6 OPCODE_SAVE true],
          [6, 4]) := by
  refine ⟨?_, ?_, ?_⟩ <;> decide

/-- C20 (amended): the claimed-index table is changed only by a successful
claim completion, which writes the address of the completing node into the
one slot `claimed_slot` of the returned value, whatever that slot held, and
leaves every other slot as it was; every other event leaves the table
unchanged. -/
theorem C20_table_written_only_by_claim (MaxSize : Nat) (env : Env) (sys sys1 : System)
    (ev : Event) (eff : List Effect)
    (h1 : 1 ≤ MaxSize) (h2 : MaxSize ≤ 256) (hm : env.MaxSize = MaxSize)
    (hs : step env sys ev = some (sys1, eff)) :
    (∀ k resp ok, ev = Event.enum_getset_done k true resp ok →
      ∃ B, sys.pending.enum_getset.get? k = some B
        ∧ sys1.st._esc_enumeration_ids
          = sys.st._esc_enumeration_ids.set (claimed_slot MaxSize resp.value) B
        ∧ ∀ j, j ≠ claimed_slot MaxSize resp.value →
            sys1.st._esc_enumeration_ids.getD j 0 = sys.st._esc_enumeration_ids.getD j 0)
    ∧ ((∀ k resp ok, ev ≠ Event.enum_getset_done k true resp ok) →
        sys1.st._esc_enumeration_ids = sys.st._esc_enumeration_ids) := by
  rcases step_table env MaxSize hm h1 h2 sys sys1 ev eff hs with
    ⟨k, resp, ok, B, hev, hB, t1, _⟩ | ⟨hne, t1, _⟩
  · refine ⟨?_, ?_⟩
    · intro k2 resp2 ok2 hev2
      rw [hev] at hev2
      simp only [Event.enum_getset_done.injEq, true_and] at hev2
      obtain ⟨rfl, rfl, rfl⟩ := hev2
      refine ⟨B, hB, t1, ?_⟩
      intro j hj
      rw [t1]
      simp only [List.getD_eq_getElem?_getD, List.getElem?_set]
      split
      · rename_i h; exact absurd h.symm hj
      · rfl
    · intro hne
      exact absurd hev (hne k resp ok)
  · refine ⟨?_, fun _ => t1⟩
    intro k resp ok hev
    exact absurd hev (hne k resp ok)

/-- C20 (amended) at the completion of the claim of node 4 with index 0. -/
theorem C20_table_written_only_by_claim_witness :
    step env_4_6 sys_claim_pending_4 (claim_reply 0)
        = some (sys_claimed_4, [Effect.enum_save_call 4 OPCODE_SAVE true])
    ∧ sys_claimed_4.st._esc_enumeration_ids
        = sys_claim_pending_4.st._esc_enumeration_ids.set
            (claimed_slot 20 (Value.integer_value 0)) 4
    ∧ sys_claimed_4.st._esc_enumeration_ids.getD 1 0
        = sys_claim_pending_4.st._esc_enumeration_ids.getD 1 0 := by
  have hs : step env_4_6 sys_claim_pending_4 (claim_reply 0)
      = some (sys_claimed_4, [Effect.enum_save_call 4 OPCODE_SAVE true]) := by decide
  obtain ⟨B, hB, hset, hrest⟩ :=
    (C20_table_written_only_by_claim 20 env_4_6 sys_claim_pending_4 sys_claimed_4
      (claim_reply 0) [Effect.enum_save_call 4 OPCODE_SAVE true]
      (by decide) (by decide) rfl hs).1 0 _ true rfl
  have hB4 : B = 4 := by
    have : sys_claim_pending_4.pending.enum_getset.get? 0 = some 4 := rfl
    rw [this] at hB
    exact (Option.some.inj hB).symm
  subst hB4
  exact ⟨hs, hset, hrest 1 (by decide)⟩

/-! ### End of enumeration, failures and the node search -/

/-- C21: on every completion of a save call (`cb_enumeration_save`),
whatever its outcome: when the highest-claimed index equals `MaxSize - 1` or
equals the acceptance counter minus one (as integers), enumeration is set
inactive, nothing else changes, and after the beep a Begin request with
timeout 0 is sent to `get_next_active_node_id(1)`, the lowest known address
other than the own one when there is one; in every other case the member
variables, the active flag among them, are unchanged and only the beep is
emitted, no Begin request. -/
theorem C21_save_completion_ends_enumeration (env : Env) (s : State)
    (successful ok call_ok : Bool) :
    (((s._esc_enumeration_index : Int) = (env.MaxSize : Int) - 1
        ∨ (s._esc_enumeration_index : Int) = (s._esc_count : Int) - 1) →
      (cb_enumeration_save env s successful ok call_ok).1
          = { s with _esc_enumeration_active := false }
      ∧ ∃ b, (cb_enumeration_save env s successful ok call_ok).2
          = [Effect.beep b, Effect.begin_call (get_next_active_node_id env 1) 0 call_ok])
    ∧ (¬ ((s._esc_enumeration_index : Int) = (env.MaxSize : Int) - 1
        ∨ (s._esc_enumeration_index : Int) = (s._esc_count : Int) - 1) →
      (cb_enumeration_save env s successful ok call_ok).1 = s
      ∧ begin_calls (cb_enumeration_save env s successful ok call_ok).2 = []
      ∧ ∃ b, (cb_enumeration_save env s successful ok call_ok).2 = [Effect.beep b])
    ∧ (∀ i, 1 ≤ i → i < 128 → env.isNodeKnown i = true → env.ownNodeID ≠ i →
        1 ≤ get_next_active_node_id env 1 ∧ get_next_active_node_id env 1 ≤ i
        ∧ env.isNodeKnown (get_next_active_node_id env 1) = true
        ∧ env.ownNodeID ≠ get_next_active_node_id env 1) := by
  refine ⟨?_, ?_, ?_⟩
  · intro h
    have hc : ((s._esc_enumeration_index : Int) == (env.MaxSize : Int) - 1
        || (s._esc_enumeration_index : Int) == (s._esc_count : Int) - 1) = true := by
      simpa using h
    refine ⟨?_, ?_⟩
    · simp only [cb_enumeration_save, hc]; rfl
    · simp only [cb_enumeration_save, hc]; exact ⟨_, rfl⟩
  · intro h
    have hc : ((s._esc_enumeration_index : Int) == (env.MaxSize : Int) - 1
        || (s._esc_enumeration_index : Int) == (s._esc_count : Int) - 1) = false := by
      simpa using h
    refine ⟨?_, ?_, ?_⟩
    · simp only [cb_enumeration_save, hc]; rfl
    · simp only [cb_enumeration_save, hc]; rfl
    · simp only [cb_enumeration_save, hc]; exact ⟨_, rfl⟩
  · intro i h1 h2 h3 h4
    exact get_next_active_node_id_least env 1 i h1 h2 h3 h4

/-- C21 at a state with highest-claimed index 1 and acceptance counter 2
(enumeration ends) and at a state with index 0 and counter 0 (it goes on). -/
theorem C21_save_completion_witness :
    (cb_enumeration_save env_4_6 state_claimed_4_6 true true true).1
        = { state_claimed_4_6 with _esc_enumeration_active := false }
    ∧ begin_calls (cb_enumeration_save env_4_6 state_claimed_4_6 true true true).2 = [(4, 0)]
    ∧ (cb_enumeration_save env_4_6 state_enumerating true true true).1 = state_enumerating
    ∧ begin_calls (cb_enumeration_save env_4_6 state_enumerating true true true).2 = [] :=
  ⟨((C21_save_completion_ends_enumeration env_4_6 state_claimed_4_6 true true true).1
      (Or.inr (by decide))).1,
    by decide,
    ((C21_save_completion_ends_enumeration env_4_6 state_enumerating true true true).2.1
      (by decide)).1,
    ((C21_save_completion_ends_enumeration env_4_6 state_enumerating true true true).2.1
      (by decide)).2.1⟩

/-- C22 (the claim as stated fails): a failed completion delivered to
`cb_getset` while the counting flag is clear and `_param_index = 3` leaves
`_param_index = 4`, not 3, and publishes nothing; in a list of node 2 whose
first lookup times out, the next iteration requests index 1: the list goes
on with the next index instead of asking for index 0 again. -/
theorem C22_index_advanced_on_failure :
    state_getset_index_3._count_in_progress = false
    ∧ (cb_getset state_getset_index_3 failure_from_5 true true).1._param_index = 4
    ∧ (cb_getset state_getset_index_3 failure_from_5 true true).2 = []
    ∧ (exec env_2_9 sys_count_2_is_3
        [Event.iteration (with_request (request_for MAVLINK_MSG_ID_PARAM_REQUEST_LIST 2 0)),
          timeout_reply, Event.iteration idle]).map
        (fun r => (getset_calls r.2, publications r.2, r.1.st._param_index))
      = some ([(2, { index := 0 }), (2, { index := 1 })], [], 1) := by
  decide

/-- C22 (amended): every completion delivered to `cb_getset` while the
counting flag is clear advances the list index `_param_index` by exactly
one, when the completion is successful and also when it is a failure.  The
index is an unsigned 8-bit member: the new value is the old one plus one
modulo 256, which is the old one plus one below 255. -/
theorem C22_index_advanced_on_every_completion (s : State) (result : GetSetResult)
    (call_ok adv_ok : Bool) (hc : s._count_in_progress = false) :
    (cb_getset s result call_ok adv_ok).1._param_index = (s._param_index + 1) % 256
    ∧ (s._param_index < 255 →
        (cb_getset s result call_ok adv_ok).1._param_index = s._param_index + 1) := by
  have h : (cb_getset s result call_ok adv_ok).1._param_index = (s._param_index + 1) % 256 := by
    cases hs : result.successful <;> cases hp : s._param_response_pub <;>
      simp [cb_getset, hc, hs, hp]
  refine ⟨h, ?_⟩
  intro hlt
  rw [h]
  exact Nat.mod_eq_of_lt (by omega)

/-- C22 (amended) at index 3 with a successful and with a failed completion,
and at index 255. -/
theorem C22_index_advanced_witness :
    (cb_getset state_getset_index_3 success_from_5 true true).1._param_index = 3 + 1
    ∧ (cb_getset state_getset_index_3 failure_from_5 true true).1._param_index = 3 + 1
    ∧ (cb_getset state_getset_index_255 success_from_5 true true).1._param_index
        = (255 + 1) % 256 :=
  ⟨(C22_index_advanced_on_every_completion state_getset_index_3 success_from_5 true true
      rfl).2 (by decide),
    (C22_index_advanced_on_every_completion state_getset_index_3 failure_from_5 true true
      rfl).2 (by decide),
    (C22_index_advanced_on_every_completion state_getset_index_255 success_from_5 true true
      rfl).1⟩

/-- C23 (the code at the failing input): in a counting pass for node 5, when
the call for index 2 is rejected by the client the pass ends with the
counting flag clear, the count index 0 and `_param_counts[5] = 1`, the
partial count; when instead the lookup of index 2 times out, the pass ends
with `_param_counts[5] = 0`. -/
theorem C23_rejected_next_call_keeps_partial_count :
    (exec env_2_9 (System.init 20 0)
        [Event.iteration (with_request (request_for MAVLINK_MSG_ID_PARAM_REQUEST_READ 5 3)),
          reply [97], reply_next_rejected [98]]).map
        (fun r => (r.1.st._count_in_progress, r.1.st._count_index,
          r.1.st._param_counts.getD 5 0, r.1.pending.getset))
      = some (false, 0, 1, [])
    ∧ (exec env_2_9 (System.init 20 0)
        [Event.iteration (with_request (request_for MAVLINK_MSG_ID_PARAM_REQUEST_READ 5 3)),
          reply [97], reply [98], timeout_reply]).map
        (fun r => (r.1.st._count_in_progress, r.1.st._count_index,
          r.1.st._param_counts.getD 5 0, r.1.pending.getset))
      = some (false, 0, 0, []) := by
  constructor <;> decide

/-- C24: for every base address `b <= 127`, every node directory and every
own address: when some address in `b, ..., 127` is known and is not the own
one, `get_next_active_node_id(b)` is the smallest such address; when there is
none it is `b`; it is always `>= b`, and it is `b` whenever `b` itself is
known and is not the own address. -/
theorem C24_next_active_node_id (env : Env) (b : Nat) (hb : b ≤ 127) :
    ((∃ i, b ≤ i ∧ i ≤ 127 ∧ env.isNodeKnown i = true ∧ env.ownNodeID ≠ i) →
      b ≤ get_next_active_node_id env b ∧ get_next_active_node_id env b ≤ 127
      ∧ env.isNodeKnown (get_next_active_node_id env b) = true
      ∧ env.ownNodeID ≠ get_next_active_node_id env b
      ∧ ∀ j, b ≤ j → j ≤ 127 → env.isNodeKnown j = true → env.ownNodeID ≠ j →
          get_next_active_node_id env b ≤ j)
    ∧ ((¬ ∃ i, b ≤ i ∧ i ≤ 127 ∧ env.isNodeKnown i = true ∧ env.ownNodeID ≠ i) →
      get_next_active_node_id env b = b)
    ∧ b ≤ get_next_active_node_id env b
    ∧ (env.isNodeKnown b = true → env.ownNodeID ≠ b → get_next_active_node_id env b = b) := by
  have hge : b ≤ get_next_active_node_id env b := by
    unfold get_next_active_node_id
    cases hf : (List.range' b (128 - b)).find?
        (fun i => env.isNodeKnown i && (env.ownNodeID != i)) with
    | none => exact Nat.le_refl _
    | some t => exact (find_range_some _ _ b t hf).1
  refine ⟨?_, ?_, hge, ?_⟩
  · rintro ⟨i, h1, h2, h3, h4⟩
    obtain ⟨a1, a2, a3, a4⟩ := get_next_active_node_id_least env b i h1 (by omega) h3 h4
    refine ⟨a1, by omega, a3, a4, ?_⟩
    intro j j1 j2 j3 j4
    exact (get_next_active_node_id_least env b j j1 (by omega) j3 j4).2.1
  · intro hno
    unfold get_next_active_node_id
    cases hf : (List.range' b (128 - b)).find?
        (fun i => env.isNodeKnown i && (env.ownNodeID != i)) with
    | none => rfl
    | some t =>
      obtain ⟨a1, a2, a3, _⟩ := find_range_some _ _ b t hf
      simp only [Bool.and_eq_true, bne_iff_ne, ne_eq] at a3
      exact absurd ⟨t, a1, by omega, a3.1, a3.2⟩ hno
  · intro hk ho
    have := (get_next_active_node_id_least env b b (Nat.le_refl _) (by omega) hk ho).2.1
    omega

/-- C24 with the nodes 2 and 9 known, from the bases 1, 2, 3 and 10. -/
theorem C24_next_active_node_id_witness :
    get_next_active_node_id env_2_9 1 = 2
    ∧ get_next_active_node_id env_2_9 2 = 2
    ∧ get_next_active_node_id env_2_9 3 = 9
    ∧ get_next_active_node_id env_2_9 10 = 10 := by
  have h1 := C24_next_active_node_id env_2_9 1 (by decide)
  have h2 := C24_next_active_node_id env_2_9 2 (by decide)
  have h10 := C24_next_active_node_id env_2_9 10 (by decide)
  refine ⟨by decide, h2.2.2.2 rfl (by decide), by decide, h10.2.1 ?_⟩
  rintro ⟨i, a1, a2, a3, a4⟩
  have : i = 2 ∨ i = 9 := by simpa [env_2_9] using a3
  omega

end UavcanServers
